import Mathlib

/-
Verification of the code-autofix-engine repair orchestration engine.

The Python sources are shallowly embedded: pure string manipulation is
translated to executable Lean functions over `String` / `List Char`;
calls into the Python standard library (`ast`, `re`, `difflib`) and into
external collaborators (the sandbox subprocess, the LLM backend) are
modelled as explicit oracle parameters, so that theorems about the
repository's own control flow quantify over every possible behaviour of
those collaborators, and concrete counterexamples instantiate the
oracles with the actual behaviour of CPython on the concrete strings
involved (documented at each instantiation).
-/

namespace AutoFix

/-! ## Python string primitives

Executable models of the CPython `str` operations the repository uses.
Python strings are sequences of code points, which `List Char` matches.
-/

/-- Python `str.strip()` whitespace set: space, tab, LF, CR, VT, FF. -/
def pyIsSpace (c : Char) : Bool :=
  c == ' ' || c == '\t' || c == '\n' || c == '\r' || c == '\x0b' || c == '\x0c'

def pyStripList (l : List Char) : List Char :=
  ((l.dropWhile pyIsSpace).reverse.dropWhile pyIsSpace).reverse

/-- Python `s.strip()`. -/
def pyStrip (s : String) : String := ⟨pyStripList s.data⟩

/-- Python `s.rstrip()` (no argument: strips trailing whitespace). -/
def pyRstrip (s : String) : String := ⟨(s.data.reverse.dropWhile pyIsSpace).reverse⟩

/-- Python `s.lstrip()`. -/
def pyLstrip (s : String) : String := ⟨s.data.dropWhile pyIsSpace⟩

/-- Python `s.rstrip(chars)` for an explicit strip set. -/
def pyRstripSet (chars : List Char) (s : String) : String :=
  ⟨(s.data.reverse.dropWhile (fun c => chars.contains c)).reverse⟩

/-- Contiguous-sublist test at the character level: Python `sub in s`. -/
def listIsInfixOf (pat : List Char) : List Char → Bool
  | [] => pat.isEmpty
  | c :: rest => pat.isPrefixOf (c :: rest) || listIsInfixOf pat rest

/-- Python `sub in s` (substring containment). -/
def pyContains (sub s : String) : Bool := listIsInfixOf sub.data s.data

/-- Python `s.startswith(pre)`. -/
def pyStartsWith (pre s : String) : Bool := pre.data.isPrefixOf s.data

/-- Python `s.endswith(suf)`. -/
def pyEndsWith (suf s : String) : Bool := suf.data.isSuffixOf s.data

/-- Python `s.count(c)` for a single character. -/
def pyCount (c : Char) (s : String) : Nat := s.data.count c

/-- Python `s[:n]` (slicing counts code points, as `List Char` does). -/
def pyTakeChars (n : Nat) (s : String) : String := ⟨s.data.take n⟩

/-- Python `s[n:]`. -/
def pyDropChars (n : Nat) (s : String) : String := ⟨s.data.drop n⟩

/-- Python `s.lower()` (the sources only ever lower ASCII program text). -/
def pyLower (s : String) : String := ⟨s.data.map Char.toLower⟩

/-- Splitter for Python `s.split(sep)` with a one-character separator. -/
def splitOnCharList (sep : Char) : List Char → List (List Char)
  | [] => [[]]
  | c :: rest =>
    let r := splitOnCharList sep rest
    if c == sep then [] :: r
    else
      match r with
      | [] => [[c]]
      | h :: t => (c :: h) :: t

/-- Python `s.split("\n")`: keeps empty fields, never drops a trailing one. -/
def pySplitN (s : String) : List String := (splitOnCharList '\n' s.data).map (⟨·⟩)

/-- Python `"\n".join(lines)`. -/
def pyJoinN : List String → String
  | [] => ""
  | [s] => s
  | s :: rest => s ++ "\n" ++ pyJoinN rest

/-- Worker for `pySplitlines`: accumulates the current line reversed. -/
def pySplitlinesGo (cur : List Char) : List Char → List (List Char)
  | [] => if cur.isEmpty then [] else [cur.reverse]
  | '\r' :: '\n' :: rest => cur.reverse :: pySplitlinesGo [] rest
  | c :: rest =>
    if c == '\n' || c == '\r' || c == '\x0b' || c == '\x0c' then
      cur.reverse :: pySplitlinesGo [] rest
    else pySplitlinesGo (c :: cur) rest

/-- Python `s.splitlines()`: splits on `\n`, `\r`, `\r\n`, VT, FF and drops a
final empty line (the diagnostics and sources here use only these
terminators; the exotic Unicode line breaks Python also accepts do not occur). -/
def pySplitlines (s : String) : List String := (pySplitlinesGo [] s.data).map (⟨·⟩)

/-- Python `s.replace("\r\n", "\n")`: one left-to-right non-overlapping pass. -/
def pyNormNewlinesList : List Char → List Char
  | [] => []
  | '\r' :: '\n' :: rest => '\n' :: pyNormNewlinesList rest
  | c :: rest => c :: pyNormNewlinesList rest

def pyNormNewlines (s : String) : String := ⟨pyNormNewlinesList s.data⟩

/-! ## Error taxonomy

Modelled from the spec: `errors/error_types.py` is imported throughout the
repository but is not among the source files provided; the spec (§3) gives the
closed `ErrorKind` enumeration, and `errors/error_classifier.py` additionally
references `ErrorType.ARITHMETIC`, so that member is included as well. -/
inductive ErrorType
  | NONE | SYNTAX | NAME | INDEX | KEY | ATTRIBUTE | VALUE | IMPORT | TYPE
  | ZERO_DIVISION | RECURSION | RUNTIME | LOGICAL | FILE | PARSE | REGEX
  | ENCODING | NETWORK | SYSTEM | MEMORY | UNKNOWN | ARITHMETIC
  deriving DecidableEq, Repr

/-- Embeds `parse_error` from `errors/error_parser.py` (Python branch; the
controller always calls it with the default `language="python"`).  Matching is
substring-based, exactly as in the source: empty (after `strip`) diagnostic
gives `NONE`; then the seven recognised exception tokens in source order; then
`Traceback`; and the final fallback at line 36 of the source returns
`RUNTIME`. -/
def parse_error (stderr : String) (_code : String) : ErrorType × String :=
  let text := stderr
  if pyStrip text = "" then (ErrorType.NONE, "")
  else if pyContains "SyntaxError" text then (ErrorType.SYNTAX, text)
  else if pyContains "NameError" text then (ErrorType.NAME, text)
  else if pyContains "IndexError" text then (ErrorType.INDEX, text)
  else if pyContains "KeyError" text then (ErrorType.KEY, text)
  else if pyContains "AttributeError" text then (ErrorType.ATTRIBUTE, text)
  else if pyContains "ZeroDivisionError" text then (ErrorType.ZERO_DIVISION, text)
  else if pyContains "RecursionError" text then (ErrorType.RECURSION, text)
  else if pyContains "Traceback" text then (ErrorType.RUNTIME, text)
  else (ErrorType.RUNTIME, text)

/-- The seven exception-name tokens `parse_error` recognises for Python,
in source order (`errors/error_parser.py` lines 19-33). -/
def pythonErrorTokens : List String :=
  ["SyntaxError", "NameError", "IndexError", "KeyError", "AttributeError",
   "ZeroDivisionError", "RecursionError"]

/-- Embeds `choose_fix_method` from `errors/error_classifier.py`. -/
def AST_FIRST : List ErrorType :=
  [ErrorType.SYNTAX, ErrorType.NAME, ErrorType.IMPORT, ErrorType.ATTRIBUTE,
   ErrorType.KEY, ErrorType.VALUE, ErrorType.FILE, ErrorType.PARSE,
   ErrorType.REGEX, ErrorType.ENCODING]

def LLM_FIRST : List ErrorType :=
  [ErrorType.LOGICAL, ErrorType.RECURSION, ErrorType.RUNTIME,
   ErrorType.ZERO_DIVISION, ErrorType.ARITHMETIC, ErrorType.NETWORK,
   ErrorType.SYSTEM, ErrorType.MEMORY]

def choose_fix_method (errorType : ErrorType) : String :=
  if AST_FIRST.contains errorType then "AST"
  else if LLM_FIRST.contains errorType then "LLM"
  else "LLM"

/-! ## Validation (`utils/validation.py`) -/

/-- Embeds `clean_stderr`: drops timestamped sandbox log lines, joins, strips. -/
def clean_stderr (stderr : String) : String :=
  let cleaned := (pySplitlines stderr).filter (fun line =>
    let stripped := pyStrip line
    !(pyStartsWith "[20" stripped && pyContains "] [INFO]" stripped))
  pyStrip (pyJoinN cleaned)

/-- Embeds `is_success`: success needs `error_type == NONE` and a cleaned
stderr that is empty or mentions a harmless-warning token. -/
def is_success (_stdout stderr : String) (errorType : ErrorType) : Bool :=
  if errorType ≠ ErrorType.NONE then false
  else
    let cleaned := clean_stderr stderr
    if cleaned = "" then true
    else if pyContains "warning" (pyLower cleaned) ||
            pyContains "deprecated" (pyLower cleaned) then true
    else false

/-- Embeds `validate_iteration`: returns `(success, message)`. -/
def validate_iteration (stdout stderr : String) (errorType : ErrorType) :
    Bool × String :=
  if is_success stdout stderr errorType then (true, "Execution succeeded.")
  else
    let cleaned := pyLower (clean_stderr stderr)
    if pyContains "syntaxerror" cleaned then (false, "SyntaxError detected.")
    else if pyContains "indentationerror" cleaned then
      (false, "IndentationError detected.")
    else if pyContains "memoryerror" cleaned then
      (false, "MemoryError: exceeded limit.")
    else if pyContains "timeout" cleaned || pyContains "timed out" cleaned then
      (false, "Execution timed out.")
    else if pyStrip stdout = "" && pyStrip cleaned = "" then
      (false, "Code produced no output.")
    else (false, "Errors remain.")

/-! ## SSR fixer (`fixer/ssr_fixer.py`)

`ast.parse` (used only as a success test through `_safe_parse`) is modelled as
an oracle `p : String → Bool`; everything else in the module is pure string
manipulation and is embedded directly. -/

/-- The `OPENERS` dict: mapping from opener to its closer. -/
def closerOf (c : Char) : Char :=
  if c == '[' then ']' else if c == '(' then ')' else '\x7d'

def isOpenerChar (c : Char) : Bool := c == '[' || c == '(' || c == '\x7b'

def isCloserChar (c : Char) : Bool := c == ']' || c == ')' || c == '\x7d'

/-- Scanner for `_first_unclosed_opener_in_line`.  The Python stack appends at
the end; here the head of the list is the most recent opener, so the earliest
unmatched opener (`stack[0]`) is the last element. -/
def firstUnclosedOpenerGo : List Char → Nat → List (Nat × Char) → Option (Nat × Char)
  | [], _, stack => stack.getLast?
  | c :: rest, i, stack =>
    if isOpenerChar c then firstUnclosedOpenerGo rest (i + 1) ((i, c) :: stack)
    else if isCloserChar c then
      match stack with
      | (_, o) :: tail =>
        if closerOf o == c then firstUnclosedOpenerGo rest (i + 1) tail
        else firstUnclosedOpenerGo rest (i + 1) stack
      | [] => firstUnclosedOpenerGo rest (i + 1) stack
    else firstUnclosedOpenerGo rest (i + 1) stack

/-- Embeds `_first_unclosed_opener_in_line`. -/
def first_unclosed_opener_in_line (line : String) : Option (Nat × Char) :=
  firstUnclosedOpenerGo line.data 0 []

/-- The statement-starter keyword tuple of `_line_is_likely_statement_start`. -/
def stmtStartKeywords : List String :=
  ["def ", "class ", "for ", "if ", "while ", "try:", "with ", "return ",
   "import ", "from ", "print(", "print "]

def isIdentStart (c : Char) : Bool := c.isAlpha || c == '_'

def isIdentChar (c : Char) : Bool := c.isAlphanum || c == '_'

/-- Matches the regex `[A-Za-z_][A-Za-z0-9_]*\s*X` anchored at the start,
for `X` the given symbol (used with `=` and `(`). -/
def identThenSymbol (sym : Char) : List Char → Bool
  | [] => false
  | c :: rest =>
    isIdentStart c &&
      match (rest.dropWhile isIdentChar).dropWhile pyIsSpace with
      | d :: _ => d == sym
      | [] => false

/-- First-character class of the regex `^[A-Za-z_0-9'"` ++ "`" ++ `]`. -/
def likelyStmtFirstChar (c : Char) : Bool :=
  c.isAlphanum || c == '_' || c == '\'' || c == '"' || c == '\x60'

/-- Embeds `_line_is_likely_statement_start`. -/
def _line_is_likely_statement_start (line : String) : Bool :=
  let s := pyLstrip line
  if s = "" then false
  else if stmtStartKeywords.any (fun k => pyStartsWith k s) then true
  else if identThenSymbol '=' s.data then true
  else if identThenSymbol '(' s.data then true
  else
    match s.data with
    | c :: _ => likelyStmtFirstChar c
    | [] => false

/-- Python `s.split(sep, 1)` when `sep` occurs (otherwise `none`). -/
def splitFirstCharGo (sep : Char) (acc : List Char) : List Char → Option (String × String)
  | [] => none
  | c :: rest =>
    if c == sep then some (⟨acc.reverse⟩, ⟨rest⟩)
    else splitFirstCharGo sep (c :: acc) rest

/-- Embeds `_close_opener_on_line`. -/
def _close_opener_on_line (line : String) (openerIdx : Nat) (openerChar : Char) : String :=
  let closer := closerOf openerChar
  if pyContains ⟨[closer]⟩ (pyDropChars openerIdx line) then line
  else
    match splitFirstCharGo '#' [] line.data with
    | some (codePart, comment) => pyRstrip codePart ++ ⟨[closer]⟩ ++ "  #" ++ comment
    | none => pyRstrip line ++ ⟨[closer]⟩

/-- Embeds `_dedent_line`: removes up to `n` leading spaces (spaces only). -/
def dedentGo : List Char → Nat → List Char
  | l, 0 => l
  | l, n + 1 =>
    match l with
    | ' ' :: rest => dedentGo rest n
    | _ => l

def _dedent_line (line : String) (n : Nat) : String := ⟨dedentGo line.data n⟩

/-- `len(line) - len(line.lstrip())`: the leading-whitespace width. -/
def pyIndentWidth (line : String) : Nat :=
  line.data.length - (pyLstrip line).data.length

/-- Embeds `_split_out_of_literal`: closes the unclosed opener of line
`startIdx` on that line and possibly dedents the following line. -/
def _split_out_of_literal (lines : List String) (startIdx : Nat) : List String :=
  match lines.get? startIdx with
  | none => lines
  | some startLine =>
    match first_unclosed_opener_in_line startLine with
    | none => lines
    | some (openerIdx, openerChar) =>
      let newStart := _close_opener_on_line startLine openerIdx openerChar
      let newLines := lines.set startIdx newStart
      if startIdx + 1 < newLines.length then
        let nextLine := newLines.getD (startIdx + 1) ""
        let baseIndent := pyIndentWidth startLine
        if pyIndentWidth nextLine ≤ baseIndent ||
            _line_is_likely_statement_start nextLine then
          let remove := if baseIndent > 0 then baseIndent else 4
          newLines.set (startIdx + 1) (_dedent_line nextLine remove)
        else newLines
      else newLines

/-- Embeds `_find_last_openers`. -/
def _find_last_openers (lines : List String) : List (Nat × Nat × Char) :=
  lines.enum.filterMap (fun x =>
    (first_unclosed_opener_in_line x.2).map (fun y => (x.1, y.1, y.2)))

/-- Quote-state scan shared verbatim by `_count_unmatched_openers` and
`_close_all_openers_conservatively` in the source: returns the stack of
expected closers (head = innermost, i.e. the reverse order they were opened,
which is the order the source appends them in). -/
def ssrScanResidual : List Char → List Char → Bool → Bool → Bool → List Char
  | [], stack, _, _, _ => stack
  | ch :: rest, stack, inS, inD, esc =>
    if ch == '\\' && !esc then ssrScanResidual rest stack inS inD true
    else if ch == '\'' && !esc && !inD then ssrScanResidual rest stack (!inS) inD esc
    else if ch == '"' && !esc && !inS then ssrScanResidual rest stack inS (!inD) esc
    else if inS || inD then ssrScanResidual rest stack inS inD false
    else
      let stack' :=
        if isOpenerChar ch then closerOf ch :: stack
        else if isCloserChar ch then
          match stack with
          | top :: tail => if top == ch then tail else stack
          | [] => stack
        else stack
      ssrScanResidual rest stack' inS inD false

/-- Embeds `_count_unmatched_openers`. -/
def _count_unmatched_openers (code : String) : Nat :=
  (ssrScanResidual code.data [] false false false).length

/-- Embeds `_close_all_openers_conservatively`. -/
def _close_all_openers_conservatively (code : String) : String :=
  let stack := ssrScanResidual code.data [] false false false
  if stack.isEmpty then code
  else
    pyRstrip code ++ (if pyEndsWith "\n" code then "" else "\n") ++
      (⟨stack⟩ : String) ++ "\n"

/-- Outcome of the inner `for (line_idx, ...) in openers` scan of
`apply_ssr_fix`: an early `return`, an accepted provisional change
(`break` to the next attempt), or no opener changed anything. -/
inductive SsrInnerOut
  | fixed (code : String)
  | accepted (lines : List String)
  | noneWorked

/-- The inner opener loop of `apply_ssr_fix` (source lines 232-255). -/
def ssrInnerScan (p : String → Bool) (lines : List String) :
    List (Nat × Nat × Char) → SsrInnerOut
  | [] => .noneWorked
  | (lineIdx, _, _) :: rest =>
    let candidateLines := _split_out_of_literal lines lineIdx
    let candidateCode := pyJoinN candidateLines
    if candidateCode ≠ pyJoinN lines then
      if p candidateCode then .fixed candidateCode
      else if _count_unmatched_openers candidateCode <
          _count_unmatched_openers (pyJoinN lines) then .accepted candidateLines
      else ssrInnerScan p lines rest
    else ssrInnerScan p lines rest

/-- The final section of `apply_ssr_fix` (source lines 266-273). -/
def ssrFinal (p : String → Bool) (lines : List String) : String :=
  let finalTry := _close_all_openers_conservatively (pyJoinN lines)
  if finalTry ≠ pyJoinN lines && p finalTry then finalTry else pyJoinN lines

/-- Stable insertion sort on the first component, for the source's
`openers.sort(key=lambda x: x[0])` (`_find_last_openers` already emits the
tuples in increasing line order — one per line — so the sort never reorders
anything; an insertion sort keeps the embedding executable by the kernel). -/
def insertByLineIdx (x : Nat × Nat × Char) :
    List (Nat × Nat × Char) → List (Nat × Nat × Char)
  | [] => [x]
  | y :: ys => if x.1 ≤ y.1 then x :: y :: ys else y :: insertByLineIdx x ys

def sortByLineIdx (l : List (Nat × Nat × Char)) : List (Nat × Nat × Char) :=
  l.foldr insertByLineIdx []

/-- The attempt loop of `apply_ssr_fix` (source lines 219-264); the fuel is
the remaining number of the `max_attempts = 4` attempts. -/
def ssrAttempts (p : String → Bool) : Nat → List String → String
  | 0, lines => ssrFinal p lines
  | n + 1, lines =>
    let openers := sortByLineIdx (_find_last_openers lines)
    if openers.isEmpty then ssrFinal p lines
    else
      match ssrInnerScan p lines openers with
      | .fixed c => c
      | .accepted lines' => ssrAttempts p n lines'
      | .noneWorked =>
        let combined := _close_all_openers_conservatively (pyJoinN lines)
        if combined ≠ pyJoinN lines && p combined then combined
        else ssrFinal p lines

/-- Embeds `apply_ssr_fix` with its default `max_attempts = 4` (no caller
overrides it).  `p` is the `ast.parse`-success oracle. -/
def apply_ssr_fix (p : String → Bool) (code : String) : String :=
  if code = "" then code
  else
    let working := pyNormNewlines code
    if p working then working
    else ssrAttempts p 4 (pySplitN working)

/-! ## Merge strategy (`fixer/merge_strategy.py`)

The module's own string manipulation is embedded directly; its calls into the
Python standard library are modelled by the oracle bundle `MergeEnv`:

* `parseOk s`        — `ast.parse(s)` succeeds (`_parse_ok` / `_safe_parse_tree`);
* `astTopLevelNames` — the `tree.body` walk of `_top_level_names` on a source
  that parses (the embedded `_top_level_names` adds the source's
  parse-failure guard returning `[]`);
* `astImports`       — the `ast.walk` of `_imports_from_code` on a parsing
  source (collects `Import`/`ImportFrom` first path components, nested
  statements included);
* `astDefNodes`      — for a parsing source, the `(node.name, source segment)`
  pairs of its top-level `FunctionDef`/`AsyncFunctionDef`/`ClassDef` nodes,
  `none` when `_get_source_segment_for_node` fails;
* `findBlocks t`     — `re.findall` of the top-level block pattern
  `(?:^|\n)((?:async\s+def|def|class)\s+[A-Za-z_]\w*[^\n]*:\n(?:\s+.*\n)+)`
  over `t` with `MULTILINE`;
* `blockName blk`    — `re.match((?:async\s+def|def|class)\s+([A-Za-z_]\w*), blk)`
  group 1;
* `hasDefPattern n t` — `re.search` of the per-name definition pattern
  `(?:^|\n)(?:async\s+def|def|class)\s+<n>\b[^\n]*:\n(?:\s+.*\n)+` in `t`;
* `replaceFirstDef n r t` — `re.sub` of that pattern by `r` in `t`, `count=1`
  (`_safe_replace_first`).

Each concrete instantiation below records the actual CPython behaviour on the
concrete strings involved. -/
structure MergeEnv where
  parseOk : String → Bool
  astTopLevelNames : String → List String
  astImports : String → List String
  astDefNodes : String → List (String × Option String)
  findBlocks : String → List String
  blockName : String → Option String
  hasDefPattern : String → String → Bool
  replaceFirstDef : String → String → String → String

/-- Tunables of `fixer/merge_strategy.py`. -/
def MAX_ADDED_TOPLEVEL_DEFS : Nat := 12

def MAX_ADDED_IMPORTS : Nat := 8

/-- Embeds `_top_level_names` (empty on a parse failure, as in the source). -/
def _top_level_names (env : MergeEnv) (code : String) : List String :=
  if env.parseOk code then env.astTopLevelNames code else []

/-- Embeds `_imports_from_code` (empty on a parse failure). -/
def _imports_from_code (env : MergeEnv) (code : String) : List String :=
  if env.parseOk code then env.astImports code else []

/-- Line-start test of `_strip_non_code_prefix`: the regex
`^\s*(def |class |import |from |[A-Za-z_]\w*\s*=|if |for |while |async def )`. -/
def codeLineStart (ln : String) : Bool :=
  let rest : List Char := ln.data.dropWhile pyIsSpace
  let restS : String := ⟨rest⟩
  pyStartsWith "def " restS || pyStartsWith "class " restS ||
    pyStartsWith "import " restS || pyStartsWith "from " restS ||
    pyStartsWith "if " restS || pyStartsWith "for " restS ||
    pyStartsWith "while " restS || pyStartsWith "async def " restS ||
    identThenSymbol '=' rest

/-- Embeds `_strip_non_code_prefix` (renamed: the gate reserves the original
name): drops leading prose before the first python-looking line, scanning at
most the first 40 lines. -/
def stripNonCodePreamble (s : String) : String :=
  let lines := pySplitlines s
  match (lines.take 40).findIdx? codeLineStart with
  | some i => pyJoinN (lines.drop i)
  | none => s

/-- Embeds `_count_lines`. -/
def _count_lines (s : String) : Nat :=
  if s = "" then 0 else (pySplitlines s).length

/-- `len(set(a) - set(b))` for Python string sets. -/
def pySetDiffCard (a b : List String) : Nat :=
  (a.eraseDups.filter (fun n => !b.contains n)).length

/-- The candidate extracted from raw LLM text (line 139 of the source). -/
def mergeCandidateOf (llmOut : String) : String :=
  pyStrip (stripNonCodePreamble llmOut)

/-- The step-2 loop of `merge_llm_result` over the candidate's top-level
definition nodes (source lines 182-207): substitute same-named definitions,
keeping a substitution only if the merged file still parses. -/
def mergeStep2Fold (env : MergeEnv) :
    List (String × Option String) → String → Bool → String × Bool
  | [], merged, replaced => (merged, replaced)
  | (name, seg?) :: rest, merged, replaced =>
    match seg? with
    | none => mergeStep2Fold env rest merged replaced
    | some srcNode =>
      if env.parseOk srcNode then
        if env.hasDefPattern name merged then
          let mergedCandidate := env.replaceFirstDef name ("\n" ++ srcNode ++ "\n") merged
          if env.parseOk mergedCandidate then mergeStep2Fold env rest mergedCandidate true
          else mergeStep2Fold env rest merged replaced
        else mergeStep2Fold env rest merged replaced
      else mergeStep2Fold env rest merged replaced

/-- The regex-block substitution loop shared by steps 3 and 4 of
`merge_llm_result` (source lines 221-233 and 246-258). -/
def mergeBlocksFold (env : MergeEnv) : List String → String → Bool → String × Bool
  | [], tmp, replaced => (tmp, replaced)
  | blk :: rest, tmp, replaced =>
    match env.blockName blk with
    | none => mergeBlocksFold env rest tmp replaced
    | some name =>
      if env.hasDefPattern name tmp then
        let mergedCandidate := env.replaceFirstDef name ("\n" ++ blk ++ "\n") tmp
        if env.parseOk mergedCandidate then mergeBlocksFold env rest mergedCandidate true
        else mergeBlocksFold env rest tmp replaced
      else mergeBlocksFold env rest tmp replaced

/-- Embeds `merge_llm_result`.  `int(base_lines * 0.75)` is modelled as
`base_lines * 3 / 4` in `Nat`: `0.75` is exactly representable in binary
floating point, so the product is exact and `int` truncation is floor for
every realistic line count.  The embedding is total, so the source's
`try/except` around steps 2-3 (whose body raises only on a pathological
regex failure) collapses to the normal path. -/
def merge_llm_result (env : MergeEnv) (base llmOut : String)
    (allowFullRewrite : Bool) : String :=
  if llmOut = "" then base
  else
    let candidate := mergeCandidateOf llmOut
    let baseLines := _count_lines base
    let candLines := _count_lines candidate
    if env.parseOk candidate then
      -- step 1: full-candidate path with hallucination checks
      let addedDefs := pySetDiffCard (_top_level_names env candidate)
        (_top_level_names env base)
      let newImports := pySetDiffCard (_imports_from_code env candidate)
        (_imports_from_code env base)
      if baseLines > 0 && candLines < max 1 (baseLines * 3 / 4) then base
      else if addedDefs > MAX_ADDED_TOPLEVEL_DEFS ||
          newImports > MAX_ADDED_IMPORTS then base
      else candidate
    else if !env.parseOk base then base
    else
      -- step 2: `_safe_parse_tree(candidate)` re-parses the very string that
      -- just failed `_parse_ok`, so this branch never fires; kept verbatim
      let s2 :=
        if env.parseOk candidate then
          mergeStep2Fold env (env.astDefNodes candidate) base false
        else (base, false)
      if s2.2 && env.parseOk s2.1 then s2.1
      else
        -- step 3: regex partial merge on the candidate's blocks
        let s3 := mergeBlocksFold env (env.findBlocks candidate) s2.1 false
        if s3.2 && env.parseOk s3.1 then s3.1
        else if allowFullRewrite then
          -- step 4: function-level rewrite from the raw LLM text
          let s4 := mergeBlocksFold env (env.findBlocks llmOut) base false
          if s4.2 && env.parseOk s4.1 then
            let added := pySetDiffCard (_top_level_names env s4.1)
              (_top_level_names env base)
            let newImps := pySetDiffCard (_imports_from_code env s4.1)
              (_imports_from_code env base)
            if added > MAX_ADDED_TOPLEVEL_DEFS || newImps > MAX_ADDED_IMPORTS then base
            else s4.1
          else base
        else base

/-- Step 3 of the merge accepts: some block substitution succeeded and the
result parses (source line 234). -/
def step3Accepts (env : MergeEnv) (base llmOut : String) : Prop :=
  let s3 := mergeBlocksFold env (env.findBlocks (mergeCandidateOf llmOut)) base false
  s3.2 = true ∧ env.parseOk s3.1 = true

/-- Step 4 of the merge accepts: a block substitution from the raw LLM text
succeeded, the result parses, and the final hallucination bounds pass
(source lines 259-271). -/
def step4Accepts (env : MergeEnv) (base llmOut : String) : Prop :=
  let s4 := mergeBlocksFold env (env.findBlocks llmOut) base false
  s4.2 = true ∧ env.parseOk s4.1 = true ∧
    pySetDiffCard (_top_level_names env s4.1) (_top_level_names env base) ≤
      MAX_ADDED_TOPLEVEL_DEFS ∧
    pySetDiffCard (_imports_from_code env s4.1) (_imports_from_code env base) ≤
      MAX_ADDED_IMPORTS

/-! ## Structured fixer (`fixer/ast_fixer.py`)

The eight syntactic healing passes and the aggressive healer are pure string
functions and are embedded directly (the fixed regular expressions they use
are translated by hand and documented inline).  The semantic stage's AST
traversals (`extract_defined`, `collect_unresolved`, `Prefixer` +
`ast.unparse`) are modelled by the oracle bundle `AstEnv`. -/
structure AstEnv where
  /-- `safe_parse` success. -/
  parseOk : String → Bool
  /-- `extract_defined(tree)`'s `imported_modules` set for a parsing source. -/
  importedModulesOf : String → List String
  /-- `collect_unresolved(tree, defined)` in Python set-iteration order. -/
  unresolvedOf : String → List String
  /-- `Prefixer(prefix_map).visit` + `ast.fix_missing_locations` +
  `ast.unparse`, with the source's `try/except` keeping the input on an
  unparse failure: arguments are the prefix map and the current code. -/
  prefixUnparse : List (String × String) → String → String

/-- Embeds `fix_unclosed_brackets`'s scanner: the residual stack of expected
closers, head = innermost (the order the source appends them in via
`stack[::-1]`). -/
def fixUnclosedBracketsGo : List Char → List Char → List Char
  | [], stack => stack
  | c :: rest, stack =>
    if isOpenerChar c then fixUnclosedBracketsGo rest (closerOf c :: stack)
    else if isCloserChar c then
      match stack with
      | top :: tail =>
        if top == c then fixUnclosedBracketsGo rest tail
        else fixUnclosedBracketsGo rest stack
      | [] => fixUnclosedBracketsGo rest stack
    else fixUnclosedBracketsGo rest stack

def fix_unclosed_brackets (code : String) : String :=
  code ++ (⟨fixUnclosedBracketsGo code.data []⟩ : String)

/-- Embeds `fix_backward_bracket_mismatch`: drops unmatched closers. -/
def fixBackwardGo : List Char → List Char → List Char → List Char
  | [], _, result => result.reverse
  | c :: rest, stack, result =>
    if isOpenerChar c then fixBackwardGo rest (c :: stack) (c :: result)
    else if isCloserChar c then
      match stack with
      | top :: tail =>
        if closerOf top == c then fixBackwardGo rest tail (c :: result)
        else fixBackwardGo rest stack result
      | [] => fixBackwardGo rest stack result
    else fixBackwardGo rest stack (c :: result)

def fix_backward_bracket_mismatch (code : String) : String :=
  ⟨fixBackwardGo code.data [] []⟩

/-- Embeds `fix_unclosed_strings`: appends a quote for each odd count. -/
def fix_unclosed_strings (code : String) : String :=
  let code := if pyCount '"' code % 2 == 1 then code ++ "\"" else code
  if pyCount '\'' code % 2 == 1 then code ++ "'" else code

/-- The block-keyword tuple of `fix_missing_colons_and_indent`. -/
def colonKeywords : List String :=
  ["def ", "if ", "for ", "while ", "class ", "elif ", "else", "try",
   "except", "finally", "with "]

/-- The per-line colon repair of `fix_missing_colons_and_indent`. -/
def fixColonsStep (l : String) : String :=
  let s := pyStrip l
  if colonKeywords.any (fun k => pyStartsWith k s) && !pyEndsWith ":" s then
    pyRstrip l ++ ":"
  else l

/-- Embeds the line loop of `fix_missing_colons_and_indent`; the source
mutates the *next* entry of the list it iterates, which the recursion
mirrors by carrying the current line and rebuilding the tail. -/
def fixColonsGo (l : String) : List String → List String
  | [] => [fixColonsStep l]
  | nxt :: tl =>
    let l' := fixColonsStep l
    let nxt' :=
      if pyEndsWith ":" (pyStrip l') && pyStrip nxt ≠ "" && !pyStartsWith " " nxt then
        "    " ++ nxt
      else nxt
    l' :: fixColonsGo nxt' tl

def fix_missing_colons_and_indent (code : String) : String :=
  match pySplitN code with
  | [] => ""
  | l :: tl => pyJoinN (fixColonsGo l tl)

mutual
/-- Fields of Python `re.split(r"\s+", s)` (keeps empty leading/trailing
fields, as `re.split` does). -/
def reSplitWsGo (cur : List Char) : List Char → List String
  | [] => [⟨cur.reverse⟩]
  | c :: rest =>
    if pyIsSpace c then (⟨cur.reverse⟩ : String) :: reSplitWsSkip rest
    else reSplitWsGo (c :: cur) rest

def reSplitWsSkip : List Char → List String
  | [] => [""]
  | c :: rest => if pyIsSpace c then reSplitWsSkip rest else reSplitWsGo [c] rest
end

def reSplitWs (s : String) : List String := reSplitWsGo [] s.data

/-- Character class of the token test `^[\w\(\)\+\-\*/]+$` in `fix_list`. -/
def fixListTokenChar (c : Char) : Bool :=
  c.isAlphanum || c == '_' || c == '(' || c == ')' || c == '+' || c == '-' ||
    c == '*' || c == '/'

def fixListTokenOk (t : String) : Bool := t ≠ "" && t.data.all fixListTokenChar

/-- Embeds `fix_list`: comma-joins whitespace-separated literal-looking
tokens inside a `[ ... ]` span. -/
def fix_list (text : String) : String :=
  let inner := pyTakeChars (text.data.length - 2) (pyDropChars 1 text)
  let tokens := reSplitWs inner
  if tokens.all fixListTokenOk then
    "[" ++ String.intercalate ", " tokens ++ "]"
  else text

/-- Match of `\[(.*?)\]` starting right after a `[`: the span up to the first
`]` with no newline in between (`.` does not cross lines). -/
def scanBracketSpan : List Char → Option (List Char × List Char)
  | [] => none
  | c :: rest =>
    if c == ']' then some ([], rest)
    else if c == '\n' then none
    else (scanBracketSpan rest).map (fun x => (c :: x.1, x.2))

/-- Embeds `fix_missing_commas`: `re.sub(r"\[(.*?)\]", fix_list ∘ span, code)`
with left-to-right non-overlapping replacement.  Fuel is the input length
(each step consumes at least one character). -/
def fixMissingCommasGo : Nat → List Char → List Char
  | 0, l => l
  | _ + 1, [] => []
  | fuel + 1, c :: rest =>
    if c == '[' then
      match scanBracketSpan rest with
      | some (inner, after) =>
        (fix_list ⟨'[' :: (inner ++ [']'])⟩).data ++ fixMissingCommasGo fuel after
      | none => c :: fixMissingCommasGo fuel rest
    else c :: fixMissingCommasGo fuel rest

def fix_missing_commas (code : String) : String :=
  ⟨fixMissingCommasGo code.data.length code.data⟩

/-- Embeds `fix_incomplete_calls`: `re.sub(r"(\w+)\($", r"\1()", code)`.  The
pattern can only match at the end of the string (or before one final
newline), so a `)` is inserted there when the tail is `identifier(`. -/
def fix_incomplete_calls (code : String) : String :=
  let rev := code.data.reverse
  let stripNl := match rev with
    | '\n' :: rest => (true, rest)
    | _ => (false, rev)
  match stripNl.2 with
  | '(' :: c :: _ =>
    if isIdentChar c then
      ⟨stripNl.2.reverse ++ [')'] ++ (if stripNl.1 then ['\n'] else [])⟩
    else code
  | _ => code

/-- Embeds `fix_broken_assignments`: `re.sub(r"(\w+)\s*=\s*$", r"\1 = None")`.
The greedy `\s*` consumes any trailing whitespace (the final newline
included), so the matched span runs from the identifier to the end and the
replacement normalises it to `ident = None`. -/
def fix_broken_assignments (code : String) : String :=
  let rev := code.data.reverse
  let r1 := rev.dropWhile pyIsSpace
  match r1 with
  | '=' :: r2 =>
    let r3 := r2.dropWhile pyIsSpace
    let idRev := r3.takeWhile isIdentChar
    if idRev.isEmpty then code
    else ⟨(r3.drop idRev.length).reverse ++ idRev.reverse ++ " = None".data⟩
  | _ => code

/-- Embeds `fix_trailing_operators`:
`re.sub(r"([+\-*/%]|and|or|==|!=)\s*$", "", code)` — strips one trailing
operator token together with the trailing whitespace after it. -/
def fix_trailing_operators (code : String) : String :=
  let rev := code.data.reverse
  let r1 := rev.dropWhile pyIsSpace
  let dropN : Option Nat :=
    match r1 with
    | '=' :: '=' :: _ => some 2
    | '=' :: '!' :: _ => some 2
    | 'd' :: 'n' :: 'a' :: _ => some 3
    | 'r' :: 'o' :: _ => some 2
    | c :: _ =>
      if c == '+' || c == '-' || c == '*' || c == '/' || c == '%' then some 1
      else none
    | [] => none
  match dropN with
  | some n => ⟨(r1.drop n).reverse⟩
  | none => code

/-- Embeds `re.sub(r",\s*,", ", None,", line)` from
`heal_broken_expressions` (all occurrences, non-overlapping). -/
def subDoubleCommaGo : Nat → List Char → List Char
  | 0, l => l
  | _ + 1, [] => []
  | fuel + 1, c :: rest =>
    if c == ',' then
      let ws := rest.takeWhile pyIsSpace
      match rest.drop ws.length with
      | ',' :: after => ", None,".data ++ subDoubleCommaGo fuel after
      | _ => c :: subDoubleCommaGo fuel rest
    else c :: subDoubleCommaGo fuel rest

def subDoubleComma (line : String) : String :=
  ⟨subDoubleCommaGo line.data.length line.data⟩

/-- Per-line repair of `heal_broken_expressions`. -/
def healLine (line : String) : String :=
  let s := pyStrip line
  let line :=
    if (match s.data.reverse with
        | c :: _ => c == '+' || c == '-' || c == '*' || c == '/' || c == '%'
        | [] => false) then
      pyRstripSet [' ', '+', '*', '/', '%', '-'] line ++ " 0"
    else line
  let line := subDoubleComma line
  let line := if pyEndsWith "(" s then line ++ ")" else line
  if pyStartsWith " " line || pyStartsWith "\t" line then line else pyLstrip line

/-- Embeds `heal_broken_expressions`. -/
def heal_broken_expressions (code : String) : String :=
  pyJoinN ((pySplitN code).map healLine)

/-- The `FUNC_TO_MODULE` table of `fixer/ast_rules.py`. -/
def FUNC_TO_MODULE : List (String × String) :=
  [("sqrt", "math"), ("sin", "math"), ("cos", "math"), ("tan", "math"),
   ("asin", "math"), ("acos", "math"), ("atan", "math"), ("atan2", "math"),
   ("log", "math"), ("log10", "math"), ("log2", "math"), ("exp", "math"),
   ("floor", "math"), ("ceil", "math"), ("fabs", "math"), ("factorial", "math"),
   ("degrees", "math"), ("radians", "math"), ("hypot", "math"),
   ("fmod", "math"), ("trunc", "math"), ("isfinite", "math"), ("isinf", "math"),
   ("isnan", "math"), ("gamma", "math"), ("lgamma", "math"), ("comb", "math"),
   ("perm", "math"),
   ("pi", "math"), ("e", "math"), ("tau", "math"), ("inf", "math"), ("nan", "math"),
   ("random", "random"), ("randint", "random"), ("uniform", "random"),
   ("choice", "random"), ("shuffle", "random"), ("sample", "random"),
   ("randrange", "random"), ("seed", "random"),
   ("mean", "statistics"), ("median", "statistics"), ("mode", "statistics"),
   ("stdev", "statistics"), ("variance", "statistics"),
   ("search", "re"), ("match", "re"), ("fullmatch", "re"), ("sub", "re"),
   ("findall", "re"), ("finditer", "re"), ("split", "re"), ("compile", "re"),
   ("loads", "json"), ("dumps", "json"), ("load", "json"), ("dump", "json"),
   ("datetime", "datetime"), ("timedelta", "datetime"),
   ("date", "datetime"), ("time", "datetime"), ("timezone", "datetime"),
   ("product", "itertools"), ("permutations", "itertools"),
   ("combinations", "itertools"), ("cycle", "itertools"),
   ("repeat", "itertools"), ("accumulate", "itertools"),
   ("chain", "itertools"), ("islice", "itertools"),
   ("reduce", "functools"), ("lru_cache", "functools"), ("partial", "functools"),
   ("deque", "collections"), ("Counter", "collections"),
   ("defaultdict", "collections"),
   ("heappush", "heapq"), ("heappop", "heapq"), ("heapify", "heapq"),
   ("nlargest", "heapq"), ("nsmallest", "heapq"),
   ("bisect", "bisect"), ("bisect_left", "bisect"), ("bisect_right", "bisect"),
   ("insort", "bisect"), ("insort_left", "bisect"), ("insort_right", "bisect"),
   ("Path", "pathlib"),
   ("join", "os.path"), ("basename", "os.path"), ("dirname", "os.path"),
   ("array", "numpy"), ("arange", "numpy"), ("zeros", "numpy"),
   ("ones", "numpy"), ("linspace", "numpy"), ("reshape", "numpy"),
   ("DataFrame", "pandas"), ("Series", "pandas"), ("read_csv", "pandas")]

/-- The `PREFERRED_MODULES` table of `fixer/ast_rules.py`. -/
def PREFERRED_MODULES : List (String × List String) :=
  [("sqrt", ["math", "numpy"]), ("sin", ["math", "numpy"]),
   ("cos", ["math", "numpy"]), ("log", ["math", "numpy"]),
   ("exp", ["math", "numpy"]),
   ("mean", ["statistics", "numpy"]), ("median", ["statistics", "numpy"]),
   ("mode", ["statistics"]),
   ("random", ["random", "numpy.random"]), ("randint", ["random", "numpy.random"]),
   ("search", ["re"]), ("sub", ["re"]),
   ("Path", ["pathlib"]), ("join", ["os.path", "pathlib"]),
   ("array", ["numpy"]), ("arange", ["numpy"])]

def lookupTable (table : List (String × String)) (k : String) : Option String :=
  (table.find? (fun kv => kv.1 == k)).map (·.2)

def lookupPreferred (k : String) : Option (List String) :=
  (PREFERRED_MODULES.find? (fun kv => kv.1 == k)).map (·.2)

/-- `c.split(".")[0]`. -/
def firstComponent (s : String) : String :=
  match splitOnCharList '.' s.data with
  | h :: _ => ⟨h⟩
  | [] => s

/-- Embeds `choose_best_module` (its `from_imports` parameter is unused in
the source body). -/
def choose_best_module (candidates importedModules : List String) : String :=
  match candidates.find? (fun c => importedModules.contains (firstComponent c)) with
  | some c => c
  | none => candidates.headD ""

/-- Embeds `insert_imports`: inserts the new-import block after the leading
comment/blank lines. -/
def insert_imports (code : String) (newImports : List String) : String :=
  let lines := pySplitN code
  let idx := (lines.takeWhile (fun l => pyStrip l = "" || pyStartsWith "#" l)).length
  let newBlock := pyJoinN newImports ++ "\n"
  pyJoinN (lines.take idx ++ [newBlock] ++ lines.drop idx)

/-- Embeds `fix_imports_and_names` over the `AstEnv` oracles: builds the
auto-import list and the prefix map from the unresolved names, applies the
prefix rewrite and then inserts the missing imports. -/
def fix_imports_and_names (env : AstEnv) (code : String) : String :=
  let importedModules := env.importedModulesOf code
  let used := env.unresolvedOf code
  let acc := used.foldl (fun (acc : List String × List (String × String)) name =>
    match lookupTable FUNC_TO_MODULE name with
    | none => acc
    | some m =>
      let modules := match lookupPreferred name with
        | some l => l
        | none => [m]
      let chosen := choose_best_module modules importedModules
      if importedModules.contains chosen then (acc.1, acc.2 ++ [(name, chosen)])
      else (acc.1 ++ ["from " ++ chosen ++ " import " ++ name], acc.2))
    ([], [])
  let code := if acc.2 ≠ [] then env.prefixUnparse acc.2 code else code
  let code := if acc.1 ≠ [] then insert_imports code acc.1 else code
  code

/-- Embeds `try_ast_fix`: the eight syntactic passes, a parse test, the
aggressive healer, a second parse test, then the semantic stage — or the
best-effort fallback `code or original`.  The `error_type` argument is
unused in the source body too. -/
def try_ast_fix (env : AstEnv) (_errorType : ErrorType) (code : String) : String :=
  let original := code
  let code := fix_unclosed_brackets code
  let code := fix_backward_bracket_mismatch code
  let code := fix_unclosed_strings code
  let code := fix_missing_colons_and_indent code
  let code := fix_missing_commas code
  let code := fix_incomplete_calls code
  let code := fix_broken_assignments code
  let code := fix_trailing_operators code
  if env.parseOk code then fix_imports_and_names env code
  else
    let code := heal_broken_expressions code
    if env.parseOk code then fix_imports_and_names env code
    else if code = "" then original else code

/-! ## Logical issues (shared data shape)

`LogicalIssue` dictionaries flow from `fixer/logical_detector.py` into the
controller and the LLM fixer; the fields the embedded code reads are
`issue_type`, `message` and `suggested_patch` (`kind`/`pattern`/`replacement`). -/
structure SuggestedPatch where
  kind : String
  pattern : String
  replacement : String
  deriving DecidableEq, Repr

structure Issue where
  issueType : String
  message : String
  patch : Option SuggestedPatch
  deriving DecidableEq, Repr

/-! ## LLM fixer (`fixer/llm_fixer.py`)

`qwen_generate` (the external model backend) is an oracle returning
`Option String`, `none` standing for a raised exception (the source catches
it and returns `""`; a returned Python `None` is equivalent to `""` through
the `if not raw` test).  `ast.parse` is the `parseOk` oracle, and the one
unanchored regex, the fenced-block search of `_extract_code_from_text`, is
the oracle `fenceSearch` (its group 1).  The anchored prefix/suffix
regexes are embedded directly. -/
structure LlmEnv where
  parseOk : String → Bool
  fenceSearch : String → Option String
  qwenGenerate : String → Option String

/-- `re.sub(r"^```(?:python)?\n?", "", text)`: anchored, so it strips one
fence-opening prefix, longest option first. -/
def stripFenceOpen (text : String) : String :=
  if pyStartsWith "```python\n" text then pyDropChars 10 text
  else if pyStartsWith "```python" text then pyDropChars 9 text
  else if pyStartsWith "```\n" text then pyDropChars 4 text
  else if pyStartsWith "```" text then pyDropChars 3 text
  else text

/-- `re.sub(r"\n?```$", "", text)`: `$` matches at the end or before one
final newline, and the greedy `\n?` takes the newline before the fence
when present. -/
def stripFenceClose (text : String) : String :=
  let d := text.data
  if "\n```\n".data.isSuffixOf d then ⟨d.take (d.length - 5) ++ ['\n']⟩
  else if "```\n".data.isSuffixOf d then ⟨d.take (d.length - 4) ++ ['\n']⟩
  else if "\n```".data.isSuffixOf d then ⟨d.take (d.length - 4)⟩
  else if "```".data.isSuffixOf d then ⟨d.take (d.length - 3)⟩
  else text

/-- `re.sub(r"^\s*#.*\n+", "", candidate)`: anchored, so it strips one
leading comment run (whitespace, `#`, rest of line, one or more newlines). -/
def subLeadComment (s : String) : String :=
  let d := s.data
  let rest := d.dropWhile pyIsSpace
  match rest with
  | '#' :: _ =>
    let afterHash := rest.dropWhile (fun c => !(c == '\n'))
    match afterHash with
    | '\n' :: _ => ⟨afterHash.dropWhile (fun c => c == '\n')⟩
    | _ => s
  | _ => s

/-- `re.sub(r"^[A-Za-z ,\-\(\)\"']+:\s*", "", text)`: anchored prose strip. -/
def subProse (s : String) : String :=
  let d := s.data
  let isProse : Char → Bool := fun c =>
    c.isAlpha || c == ' ' || c == ',' || c == '-' || c == '(' || c == ')' ||
      c == '"' || c == '\''
  let pre := d.takeWhile isProse
  if pre.isEmpty then s
  else
    match d.drop pre.length with
    | ':' :: rest => ⟨rest.dropWhile pyIsSpace⟩
    | _ => s

def MAX_OUTPUT_CHARS : Nat := 20000

/-- The largest-parsing-block scan of `_extract_code_from_text`
(source lines 64-74): all windows `lines[i:j]` with `i < j ≤ min(len, i+200)`,
keeping the longest stripped block of at least 10 characters that parses. -/
def extractBestBlock (env : LlmEnv) (lines : List String) : String :=
  (List.range lines.length).foldl (fun best i =>
    (List.range' (i + 1) (min lines.length (i + 200) + 1 - (i + 1))).foldl
      (fun best j =>
        let block := pyStrip (pyJoinN ((lines.drop i).take (j - i)))
        if block.data.length < 10 then best
        else if env.parseOk block && block.data.length > best.data.length then block
        else best)
      best)
    ""

/-- The post-fence part of `_extract_code_from_text` (lines 64-80). -/
def extractRest (env : LlmEnv) (text : String) : String :=
  let best := extractBestBlock env (pySplitlines text)
  if best ≠ "" then best ++ "\n"
  else
    let cleaned := pyStrip (subProse text)
    if env.parseOk cleaned then cleaned ++ "\n"
    else pyTakeChars MAX_OUTPUT_CHARS (pyStrip text)

/-- Embeds `_extract_code_from_text`. -/
def _extract_code_from_text (env : LlmEnv) (text : String) : String :=
  if text = "" then ""
  else
    match env.fenceSearch text with
    | some g =>
      let candidate := pyStrip g
      if env.parseOk candidate then candidate ++ "\n"
      else
        let candidate2 := subLeadComment candidate
        if env.parseOk candidate2 then candidate2 ++ "\n"
        else extractRest env text
    | none => extractRest env text

/-- Embeds `clean_llm_code`. -/
def clean_llm_code (env : LlmEnv) (text : String) : String :=
  if text = "" then ""
  else
    let text := pyNormNewlines text
    let text := stripFenceOpen text
    let text := stripFenceClose text
    let text := pyStrip text
    let extracted := _extract_code_from_text env text
    if pyEndsWith "\n" extracted then extracted
    else extracted ++ (if extracted ≠ "" then "\n" else "")

/-- The `_PROMPT_TEMPLATE.format(...)` assembly of `generate_llm_fix`. -/
def llmPromptTemplate (code error logic userInstructions : String) : String :=
  "You are a local code assistant. The user provided the following code:\n\n###\n"
    ++ code ++
  "\n###\n\nIt produced this error:\n\n###\n" ++ error ++
  "\n###\n\nDetected logical issues (if any):\n###\n" ++ logic ++
  "\n###\n\nUser instructions:\n" ++ userInstructions ++
  "\n\nPlease return only the corrected Python file contents (no explanation, no markdown, no fences).\nIf you cannot safely fix the program, return an empty string.\n"

/-- The summary of the first six logical issues put into the prompt. -/
def llmLogicText (logicIssues : List Issue) : String :=
  pyJoinN ((logicIssues.take 6).map (fun it => "- " ++ it.issueType ++ ": " ++ it.message))

/-- Embeds `generate_llm_fix`: ask the oracle backend, then return the first
of cleaned output / extracted candidate / raw output that passes
`_is_valid_python`, or `""`; an oracle exception (`none`) also yields `""`.
The unused `max_tokens` parameter is dropped. -/
def generate_llm_fix (env : LlmEnv) (code errorMessage userPrompt : String)
    (logicIssues : List Issue) : String :=
  let prompt := llmPromptTemplate code
    (if errorMessage ≠ "" then errorMessage else "<none>")
    (llmLogicText logicIssues) userPrompt
  match env.qwenGenerate prompt with
  | none => ""
  | some raw =>
    if raw = "" then ""
    else
      let cleaned := clean_llm_code env raw
      if cleaned ≠ "" && env.parseOk cleaned then cleaned
      else
        let candidate := _extract_code_from_text env raw
        if candidate ≠ "" && env.parseOk candidate then candidate
        else if env.parseOk raw then raw
        else ""

/-! ## Iteration controller (`iterations/iteration_controller.py`)

The controller's own logic is embedded; its collaborators are oracles in
`CtrlEnv`:

* `merge`    — the `MergeEnv` oracle bundle, used by the embedded
  `merge_llm_result`; its `parseOk` field is the shared `ast.parse` oracle,
  also driving the embedded `apply_ssr_fix` and the controller's own
  `ast.parse(extracted)` probe;
* `sandbox`  — `run_in_sandbox` (an external subprocess): call-indexed so
  repeated executions may disagree;
* `inspect`  — `inspect_and_test(...)["issues"]` (the logical detector runs
  sandboxed dynamic tests, hence call-indexed as well);
* `llmFix`   — `generate_llm_fix` as the controller sees it: an arbitrary
  string per call (the LLM is nondeterministic; theorems about the loop
  quantify over every possible return value, which subsumes the embedded
  `generate_llm_fix` used for its own claim);
* `astFix`   — `try_ast_fix` under the controller's `try/except`: `none`
  models a raised exception (again, quantifying over all outcomes of the
  structured fixer subsumes the embedded `try_ast_fix`);
* `reSub`    — `re.sub(pattern, replacement, text)` for the issue patches
  (the `except: pass` around it is modelled by the oracle returning its
  input);
* `reSearch` / `reSearchDotAll` — `re.search` with and without `re.DOTALL`
  for `detect_semantic_conflicts`' patterns;
* `fencedPythonAll` / `fencedRawAll` / `indentedBlocksAll` — the three
  `re.findall` calls of `extract_code_from_llm`;
* `ndiff`    — `difflib.ndiff` on two line lists. -/
structure CtrlEnv where
  merge : MergeEnv
  sandbox : Nat → String → String × String
  inspect : Nat → String → List Issue
  llmFix : Nat → String → String → String → List Issue → String
  astFix : Nat → ErrorType → String → Option String
  reSub : String → String → String → String
  reSearch : String → String → Bool
  reSearchDotAll : String → String → Bool
  fencedPythonAll : String → List String
  fencedRawAll : String → List String
  indentedBlocksAll : String → List String
  ndiff : List String → List String → List String

/-- Member name of an `ErrorType` value (for Python `str(ErrorType.X)`,
which renders as `ErrorType.X`). -/
def errorTypeName : ErrorType → String
  | .NONE => "NONE" | .SYNTAX => "SYNTAX" | .NAME => "NAME" | .INDEX => "INDEX"
  | .KEY => "KEY" | .ATTRIBUTE => "ATTRIBUTE" | .VALUE => "VALUE"
  | .IMPORT => "IMPORT" | .TYPE => "TYPE" | .ZERO_DIVISION => "ZERO_DIVISION"
  | .RECURSION => "RECURSION" | .RUNTIME => "RUNTIME" | .LOGICAL => "LOGICAL"
  | .FILE => "FILE" | .PARSE => "PARSE" | .REGEX => "REGEX"
  | .ENCODING => "ENCODING" | .NETWORK => "NETWORK" | .SYSTEM => "SYSTEM"
  | .MEMORY => "MEMORY" | .UNKNOWN => "UNKNOWN" | .ARITHMETIC => "ARITHMETIC"

def errorTypeStr (e : ErrorType) : String := "ErrorType." ++ errorTypeName e

/-- The `error_type` slot of an `IterationRecord`: the controller stores
either an `ErrorType` member or the bare string `"SEMANTIC"` (iteration 0). -/
inductive RecordError
  | et (e : ErrorType)
  | raw (s : String)
  deriving DecidableEq, Repr

/-- Embeds `create_iteration_report` (`iterations/iteration_report.py`).
The wall-clock `timestamp` and the optional `execution_time` are environment
readings no claim mentions and are omitted. -/
structure IterationRecord where
  iteration : Nat
  fixMethod : String
  errorType : RecordError
  success : Bool
  stdout : String
  stderr : String
  codeSnapshot : String
  deriving DecidableEq, Repr

def create_iteration_report (iteration : Nat) (code stdout stderr : String)
    (fixMethod : String) (errorType : RecordError) (success : Bool) :
    IterationRecord :=
  ⟨iteration, fixMethod, errorType, success, stdout, stderr, code⟩

/-- One entry of the line-level change log (`compute_changes`). -/
structure ChangeEntry where
  iteration : Nat
  fixMethod : String
  errorType : String
  changeType : String
  lineOld : Option Nat
  lineNew : Option Nat
  oldText : String
  newText : String
  reason : String
  deriving DecidableEq, Repr

/-- The row loop of `compute_changes`: `tag = row[:2]`, `text = row[2:]`,
with the two line counters; rows with any other tag (such as the `? ` hint
rows `difflib.ndiff` can emit) change nothing. -/
def computeChangesGo (iteration : Nat) (method errType : String) :
    List String → Nat → Nat → List ChangeEntry
  | [], _, _ => []
  | row :: rest, oldLn, newLn =>
    let tag := pyTakeChars 2 row
    let text := pyDropChars 2 row
    if tag = "  " then computeChangesGo iteration method errType rest (oldLn + 1) (newLn + 1)
    else if tag = "- " then
      ⟨iteration, method, errType, "removed", some (oldLn + 1), none, text, "", "Removed"⟩
        :: computeChangesGo iteration method errType rest (oldLn + 1) newLn
    else if tag = "+ " then
      ⟨iteration, method, errType, "added", none, some (newLn + 1), "", text, "Added"⟩
        :: computeChangesGo iteration method errType rest oldLn (newLn + 1)
    else computeChangesGo iteration method errType rest oldLn newLn

/-- Embeds `compute_changes` over the `difflib.ndiff` oracle. -/
def compute_changes (ndiff : List String → List String → List String)
    (oldCode newCode : String) (iteration : Nat) (method errType : String) :
    List ChangeEntry :=
  computeChangesGo iteration method errType
    (ndiff (pySplitlines oldCode) (pySplitlines newCode)) 0 0

/-- Embeds `normalize_code` (the `None` input case cannot arise: every call
site passes a string). -/
def normalize_code (s : String) : String := pyRstrip (pyNormNewlines s)

/-- Embeds `ensure_diff`: the guaranteed-difference fallback appending the
`# forced-diff-<iteration>` marker. -/
def ensure_diff (oldCode newCode : String) (iteration : Nat) : String :=
  if normalize_code oldCode ≠ normalize_code newCode then newCode
  else pyRstrip newCode ++ "\n# forced-diff-" ++ toString iteration ++ "\n"

/-- Embeds `_apply_logical_patches` over the `re.sub` oracle; an oracle that
returns its input models the `except: pass` around a failing substitution. -/
def _apply_logical_patches (reSub : String → String → String → String)
    (code : String) (issues : List Issue) : String :=
  issues.foldl (fun patched issue =>
    match issue.patch with
    | none => patched
    | some p =>
      if p.kind = "text_replace" then reSub p.pattern p.replacement patched
      else patched)
    code

/-- Embeds `detect_semantic_conflicts`.  The substring guards are embedded;
the regular-expression probes inside them go through the `re.search`
oracles, with the pattern text passed verbatim. -/
def detect_semantic_conflicts (env : CtrlEnv) (code : String) : Bool :=
  let c := pyLower code
  if pyContains "def preorder" c &&
      (env.reSearchDotAll "preorder\\s*\\(.*left.*\\).*preorder\\s*\\(.*right.*\\).*append" c ||
       env.reSearchDotAll "preorder\\s*\\(.*left.*\\).*append.*preorder\\s*\\(.*right.*\\)" c) then
    true
  else if pyContains "def inorder" c &&
      !env.reSearchDotAll "left.*append.*right" c then true
  else if pyContains "def postorder" c &&
      env.reSearch "append.*(left|right)" c then true
  else if pyContains "def fib" c && pyContains "memo" c &&
      pyContains "return memo[0]" c then true
  else if (pyContains "def binary_search" c || pyContains "def binarysearch" c) &&
      ((pyContains "mid =" c && !pyContains "//" c && pyContains "+" c &&
          env.reSearch "mid\\s*=\\s*\\(?.*left.*\\+.*right.*\\)?\\s*/\\s*2" c) ||
        env.reSearch "left\\s*=\\s*mid\\s*(?!\\+|\\-)" c ||
        env.reSearch "right\\s*=\\s*mid\\s*(?!\\+|\\-)" c) then true
  else false

/-- `re.search(r"(def |class |=|\()", s)`: an alternation of literals, i.e.
a substring test. -/
def hasCodeMarker (s : String) : Bool :=
  pyContains "def " s || pyContains "class " s || pyContains "=" s ||
    pyContains "(" s

/-- `re.sub(r"^( {4}|\t)", "", ln)`: strip one level of indentation. -/
def stripIndentOnce (ln : String) : String :=
  if pyStartsWith "    " ln then pyDropChars 4 ln
  else if pyStartsWith "\t" ln then pyDropChars 1 ln
  else ln

/-- Python `max(l, key=len)`: first element of maximal length. -/
def maxByLen (l : List String) : String :=
  l.foldl (fun best x => if x.data.length > best.data.length then x else best)
    (l.headD "")

/-- `lines[-n:]`. -/
def lastN (n : Nat) (l : List String) : List String := l.drop (l.length - n)

/-- Embeds `extract_code_from_llm` (controller, lines 54-85): last fenced
block, else the longest indented block dedented once, else the shortest
trailing window containing a code marker, else the last 40 lines. -/
def extract_code_from_llm (env : CtrlEnv) (llm : String) : String :=
  if llm = "" then ""
  else
    match (env.fencedPythonAll llm).getLast? with
    | some m => pyStrip m
    | none =>
      match (env.fencedRawAll llm).getLast? with
      | some m => pyStrip m
      | none =>
        let indented := env.indentedBlocksAll ("\n" ++ llm)
        if indented ≠ [] then
          let block := maxByLen indented
          pyStrip (pyJoinN ((pySplitlines block).map stripIndentOnce))
        else
          let lines := (pySplitlines llm).filterMap (fun ln =>
            if pyStrip ln ≠ "" then some (pyRstrip ln) else none)
          if lines = [] then ""
          else
            match (List.range' 1 (min 40 lines.length)).findSome? (fun w =>
              let candidate := pyJoinN (lastN w lines)
              if hasCodeMarker candidate then some (pyStrip candidate) else none) with
            | some c => c
            | none => pyStrip (pyJoinN (lastN 40 lines))

/-- The `if method == "LLM"` block of the main loop (source lines 341-382):
the conservative merge, the extracted-snippet merges, and the `ensure_diff`
fallback.  `newCode` is the loop's `new_code` on entry to the block (equal
in value to `old_code` whenever the block runs, since an AST change keeps
the method `"AST"`); `oldCode` is the `old_code` the `ensure_diff` calls
reference. -/
def llmFixBranch (env : CtrlEnv) (i : Nat) (oldCode newCode llmRaw : String)
    (calls : Nat) : String × String × Nat :=
  let merged := merge_llm_result env.merge newCode llmRaw false
  let extracted := extract_code_from_llm env llmRaw
  if normalize_code merged ≠ normalize_code newCode then (merged, "LLM", calls)
  else if extracted ≠ "" && normalize_code extracted ≠ normalize_code newCode then
    let mergedFromExtracted := merge_llm_result env.merge newCode extracted true
    if normalize_code mergedFromExtracted ≠ normalize_code newCode then
      (mergedFromExtracted, "LLM", calls)
    else if env.merge.parseOk extracted then
      let mergedTry := merge_llm_result env.merge newCode extracted true
      if normalize_code mergedTry ≠ normalize_code newCode then
        (mergedTry, "LLM", calls)
      else (ensure_diff oldCode oldCode i, "LLM", calls)
    else (ensure_diff oldCode oldCode i, "LLM", calls)
  else (ensure_diff oldCode oldCode i, "LLM", calls)

/-- The `APPLY FIX` stage of the main loop (source lines 329-382): the AST
attempt with its downgrade-to-LLM paths, then the LLM merge cascade with the
`ensure_diff` fallback.  Returns `(new_code, applied_method, call counter)`
*before* the post-fix SSR pass.  `oldCode` is the loop's `old_code`
(the post-SSR, post-patch source, which is also `new_code` on entry). -/
def applyFixStage (env : CtrlEnv) (userPrompt : String) (i : Nat)
    (method : String) (errorType : ErrorType) (oldCode fullErr : String)
    (logicIssues : List Issue) (calls : Nat) : String × String × Nat :=
  let astStep :=
    if method = "AST" then
      match env.astFix calls errorType oldCode with
      | some patched =>
        if normalize_code patched ≠ normalize_code oldCode then
          ("AST", patched, calls + 1)
        else ("LLM", oldCode, calls + 1)
      | none => ("LLM", oldCode, calls + 1)
    else (method, oldCode, calls)
  let methodAfterAst := astStep.1
  let afterAst := astStep.2.1
  let calls := astStep.2.2
  if methodAfterAst = "LLM" then
    llmFixBranch env i oldCode afterAst
      (env.llmFix calls afterAst fullErr userPrompt logicIssues) (calls + 1)
  else (afterAst, methodAfterAst, calls)

/-- The controller's loop-carried state: the current source, the
accumulated reports and change log, and the oracle call counter (each
collaborator call consumes a fresh index, modelling nondeterminism across
calls). -/
structure LoopState where
  code : String
  reports : List IterationRecord
  changeLog : List ChangeEntry
  calls : Nat
  deriving Repr

/-- Outcome of one main-loop iteration: an early `return` from
`run_repair_loop`, or the state for the next iteration. -/
inductive StepOut
  | done (code : String) (reports : List IterationRecord)
      (changeLog : List ChangeEntry) (status : String)
  | next (st : LoopState)
  deriving Repr

/-- The final source an iteration leaves behind. -/
def stepEndCode : StepOut → String
  | .done c _ _ _ => c
  | .next st => st.code

/-- The report list an iteration leaves behind. -/
def stepReports : StepOut → List IterationRecord
  | .done _ r _ _ => r
  | .next st => st.reports

/-- The tail of one main-loop iteration, from the post-fix SSR pass to the
record emission (source lines 384-424): diff tracking, re-execution,
re-classification with the output-change upgrade, validation, and the
LLM-success early return.  `fx` is the apply-fix stage's
`(new_code, applied_method, call counter)`. -/
def emitIteration (st : LoopState) (i : Nat)
    (newCode valStdout valStderr appliedMethod : String) (newErr : ErrorType)
    (changeLog : List ChangeEntry) (calls : Nat) : StepOut :=
  let success := (validate_iteration valStdout valStderr newErr).1
  let reports := st.reports ++
    [create_iteration_report i newCode valStdout valStderr appliedMethod
      (.et newErr) success]
  if appliedMethod = "LLM" ∧ newErr = ErrorType.NONE then
    .done newCode reports changeLog "SUCCESS"
  else .next ⟨newCode, reports, changeLog, calls⟩

def iterationFinish (env : CtrlEnv) (i : Nat) (st : LoopState)
    (iterationStartOutput oldCode : String) (errorType : ErrorType)
    (fx : String × String × Nat) : StepOut :=
  let newCode := apply_ssr_fix env.merge.parseOk fx.1
  let appliedMethod := fx.2.1
  let calls := fx.2.2
  let changeLog :=
    if normalize_code newCode ≠ normalize_code oldCode then
      st.changeLog ++
        compute_changes env.ndiff oldCode newCode i appliedMethod
          (errorTypeStr errorType)
    else st.changeLog
  let vb := env.sandbox calls newCode
  let valStdout := vb.1
  let valStderr := vb.2
  let calls := calls + 1
  let newErr := (parse_error valStderr newCode).1
  let newErr := if valStdout ≠ iterationStartOutput then ErrorType.LOGICAL else newErr
  let newErr := if env.inspect calls newCode ≠ [] then ErrorType.LOGICAL else newErr
  let calls := calls + 1
  emitIteration st i newCode valStdout valStderr appliedMethod newErr changeLog calls

/-- One iteration of the main repair loop (source lines 283-424). -/
def iterationStep (env : CtrlEnv) (userPrompt : String) (i : Nat)
    (st : LoopState) : StepOut :=
  let sb := env.sandbox st.calls st.code
  let stdout := sb.1
  let stderr := sb.2
  let calls := st.calls + 1
  let iterationStartOutput := stdout
  let pe := parse_error stderr st.code
  let runtimeError := pe.1
  let fullErr := pe.2
  let logicIssues := env.inspect calls st.code
  let calls := calls + 1
  let errorType := if logicIssues ≠ [] then ErrorType.LOGICAL else runtimeError
  if errorType = ErrorType.NONE ∧ pyStrip userPrompt = "" then
    .done st.code
      (st.reports ++
        [create_iteration_report i st.code stdout stderr "NONE" (.et errorType) true])
      st.changeLog "SUCCESS"
  else
    let method :=
      if pyStrip userPrompt ≠ "" then "LLM"
      else if errorType = ErrorType.LOGICAL then "LLM"
      else choose_fix_method errorType
    let code := apply_ssr_fix env.merge.parseOk st.code
    let code :=
      if errorType = ErrorType.LOGICAL then
        _apply_logical_patches env.reSub code logicIssues
      else code
    let oldCode := code
    iterationFinish env i st iterationStartOutput oldCode errorType
      (applyFixStage env userPrompt i method errorType oldCode fullErr
        logicIssues calls)

/-- Result of a whole repair run. -/
structure RunResult where
  finalCode : String
  reports : List IterationRecord
  changeLog : List ChangeEntry
  status : String
  deriving Repr

/-- The iteration-0 semantic-intent branch of `run_repair_loop` (source
lines 208-277).  The embedded `merge_llm_result` is total, so the source's
`except` handler around it is unreachable in the model; the record is
emitted with `success=True` and `error_type="SEMANTIC"` exactly as in the
source. -/
def semanticBranch (env : CtrlEnv) (originalCode userPrompt : String) : RunResult :=
  let llmRaw := env.llmFix 0 originalCode "SEMANTIC_INTENT_MISMATCH"
    (if userPrompt ≠ "" then userPrompt
     else "Fix the logic according to the function naming semantics. Return a full corrected file or code block.")
    []
  let extracted := extract_code_from_llm env llmRaw
  let mergedCandidate := merge_llm_result env.merge originalCode llmRaw true
  let newCode :=
    if mergedCandidate ≠ "" ∧
        normalize_code mergedCandidate ≠ normalize_code originalCode then
      mergedCandidate
    else if extracted ≠ "" then
      let mergedFromExtracted := merge_llm_result env.merge originalCode extracted true
      if mergedFromExtracted ≠ "" ∧
          normalize_code mergedFromExtracted ≠ normalize_code originalCode then
        mergedFromExtracted
      else if env.merge.parseOk extracted then extracted
      else if mergedCandidate ≠ "" then mergedCandidate else originalCode
    else if mergedCandidate ≠ "" then mergedCandidate else originalCode
  let diffEntries := compute_changes env.ndiff originalCode newCode 0 "LLM" "SEMANTIC"
  let report := create_iteration_report 0 newCode "" "" "LLM" (.raw "SEMANTIC") true
  ⟨newCode, [report], diffEntries, "SUCCESS"⟩

/-- The `for i in range(1, max_iter + 1)` loop; the first argument is the
remaining iteration budget, the second the current iteration index. -/
def runIterations (env : CtrlEnv) (userPrompt : String) :
    Nat → Nat → LoopState → RunResult
  | 0, _, st => ⟨st.code, st.reports, st.changeLog, "FAILED"⟩
  | n + 1, i, st =>
    match iterationStep env userPrompt i st with
    | .done c r cl s => ⟨c, r, cl, s⟩
    | .next st' => runIterations env userPrompt n (i + 1) st'

def MAX_ITERATIONS : Nat := 5

/-- Embeds `run_repair_loop`.  `max_iterations or MAX_ITERATIONS` treats a
falsy argument (`None` / `0`) as the default, modelled by `0 ↦ 5`. -/
def run_repair_loop (env : CtrlEnv) (originalCode userPrompt : String)
    (maxIterations : Nat) : RunResult :=
  let maxIter := if maxIterations = 0 then MAX_ITERATIONS else maxIterations
  if detect_semantic_conflicts env originalCode then
    semanticBranch env originalCode userPrompt
  else runIterations env userPrompt maxIter 1 ⟨originalCode, [], [], 0⟩

/-! ## Change-log replay

Modelled from the spec: no replay function exists in the source; spec §8
("replaying the ChangeEntries in order on the initial source produces the
final source") defines it as applying each added/removed line at its
recorded position.  Entries are applied per recorded iteration: within one
iteration's batch the removals reference positions of that iteration's old
source (deleted simultaneously, as their positions all predate the
additions), and the additions insert their text at their recorded new-line
positions in recorded order. -/
def removedSel (en : ChangeEntry) : Option Nat :=
  if en.changeType = "removed" then en.lineOld else none

def addStep (acc : List String) (en : ChangeEntry) : List String :=
  if en.changeType = "added" then
    match en.lineNew with
    | some k => acc.insertIdx (k - 1) en.newText
    | none => acc
  else acc

def applyGroup (lines : List String) (entries : List ChangeEntry) : List String :=
  let removedPositions := entries.filterMap removedSel
  let kept := (lines.enum.filter (fun x => !(removedPositions.contains (x.1 + 1)))).map (·.2)
  entries.foldl addStep kept

/-- Batches a change log into runs of consecutive entries sharing an
iteration index. -/
def groupByIterGo (curIter : Nat) (cur : List ChangeEntry) :
    List ChangeEntry → List (List ChangeEntry)
  | [] => [cur.reverse]
  | e :: rest =>
    if e.iteration = curIter then groupByIterGo curIter (e :: cur) rest
    else cur.reverse :: groupByIterGo e.iteration [e] rest

/-- Modelled from the spec: replay a change log over the initial source's
lines, one iteration batch at a time. -/
def replayLines (lines : List String) : List ChangeEntry → List String
  | [] => lines
  | e :: rest => (groupByIterGo e.iteration [e] rest).foldl applyGroup lines

/-! ## Formalised claims

Each `claimCk` states the corresponding CLAIMS.json property over the
embedding, quantified over every oracle behaviour (so a counterexample may
pick any oracle consistent with CPython on the strings involved, and a
proof covers the real collaborators in particular). -/

/-- C1 as stated: every emitted IterationRecord (iteration 0 included) with
`success = true` carries error kind `NONE`. -/
def claimC1 : Prop :=
  ∀ (env : CtrlEnv) (original userPrompt : String) (maxIter : Nat),
    ∀ r ∈ (run_repair_loop env original userPrompt maxIter).reports,
      r.success = true → r.errorType = RecordError.et ErrorType.NONE

/-- C2 as stated: no iteration of the main loop leaves the source
bit-identical to its input. -/
def claimC2 : Prop :=
  ∀ (env : CtrlEnv) (userPrompt : String) (i : Nat) (st : LoopState),
    stepEndCode (iterationStep env userPrompt i st) ≠ st.code

/-- C3 as stated: an accepted merge yields at least `⌈0.75·lines(base)⌉`
lines (`(3·n+3)/4` is that ceiling in `Nat`). -/
def claimC3 : Prop :=
  ∀ (env : MergeEnv) (base llmOut : String) (allow : Bool),
    merge_llm_result env base llmOut allow ≠ base →
      (3 * _count_lines base + 3) / 4 ≤
        _count_lines (merge_llm_result env base llmOut allow)

/-- C5 as stated: empty diagnostic gives `NONE`; otherwise, when no known
token occurs, a traceback marker gives `RUNTIME` and its absence `UNKNOWN`. -/
def claimC5 : Prop :=
  ∀ stderr code : String,
    (pyStrip stderr = "" → (parse_error stderr code).1 = ErrorType.NONE) ∧
    (pyStrip stderr ≠ "" →
      (∀ tok ∈ pythonErrorTokens, pyContains tok stderr = false) →
      (pyContains "Traceback" stderr = true →
        (parse_error stderr code).1 = ErrorType.RUNTIME) ∧
      (pyContains "Traceback" stderr = false →
        (parse_error stderr code).1 = ErrorType.UNKNOWN))

/-- C6 as stated: on every parsing source the Structured fixer's output
parses and has the same top-level defined names (for any reading `names` of
the top-level-name extraction). -/
def claimC6 : Prop :=
  ∀ (env : AstEnv) (names : String → List String) (k : ErrorType) (s : String),
    env.parseOk s = true →
      env.parseOk (try_ast_fix env k s) = true ∧
      ∀ x, x ∈ names (try_ast_fix env k s) ↔ x ∈ names s

/-- C7 as stated: SSR is idempotent on every source. -/
def claimC7 : Prop :=
  ∀ (p : String → Bool) (s : String),
    apply_ssr_fix p (apply_ssr_fix p s) = apply_ssr_fix p s

/-- C8 as stated: whenever the merge accepts changes, the result adds at
most 12 top-level definitions and at most 8 imports over the base. -/
def claimC8 : Prop :=
  ∀ (env : MergeEnv) (base llmOut : String) (allow : Bool),
    merge_llm_result env base llmOut allow ≠ base →
      pySetDiffCard (_top_level_names env (merge_llm_result env base llmOut allow))
        (_top_level_names env base) ≤ MAX_ADDED_TOPLEVEL_DEFS ∧
      pySetDiffCard (_imports_from_code env (merge_llm_result env base llmOut allow))
        (_imports_from_code env base) ≤ MAX_ADDED_IMPORTS

/-- C9 as stated: replaying the recorded ChangeEntries on the initial
source reproduces the final source (line for line). -/
def claimC9 : Prop :=
  ∀ (env : CtrlEnv) (original userPrompt : String) (maxIter : Nat),
    replayLines (pySplitlines original)
        ((run_repair_loop env original userPrompt maxIter).changeLog) =
      pySplitlines ((run_repair_loop env original userPrompt maxIter).finalCode)

/-! ## Concrete instances

Each oracle instantiation below is documented with the CPython behaviour it
records on the concrete strings involved; a field that is never consulted
during the computation is inert. -/

/-- A `MergeEnv` whose oracles are inert: nothing parses, no names or
blocks, substitution is the identity. -/
def inertMergeEnv : MergeEnv :=
  ⟨fun _ => false, fun _ => [], fun _ => [], fun _ => [], fun _ => [],
   fun _ => none, fun _ _ => false, fun _ _ t => t⟩

/-- A `CtrlEnv` for runs whose collaborators are trivial: the sandbox
returns `("", "")` (a clean run), the detector finds nothing, the LLM
returns `""` (`generate_llm_fix`'s failure value), the structured fixer
raises, regex probes find nothing, and `difflib.ndiff` is recorded for
equal line lists only (all-context rows), which is the only way this
environment's runs invoke it. -/
def inertCtrlEnv : CtrlEnv :=
  ⟨inertMergeEnv,
   fun _ _ => ("", ""),
   fun _ _ => [],
   fun _ _ _ _ _ => "",
   fun _ _ _ => none,
   fun _ _ t => t,
   fun _ _ => false,
   fun _ _ => false,
   fun _ => [],
   fun _ => [],
   fun _ => [],
   fun a _ => a.map (fun l => "  " ++ l)⟩

/-- C7: a six-line source with five unclosed parentheses and a final junk
line.  CPython's `ast.parse` fails on it and on every intermediate string
SSR builds from it (each keeps either the `x x` juxtaposition or an
unclosed paren), so the constant-false parse oracle records the real
behaviour.  Four attempts close four openers; a second application closes
the fifth. -/
def ssrLoopInput : String := "a = (1\nb = (2\nc = (3\nd = (4\ne = (5\nx x"

/-- C6: a parsing source whose comment holds an unpaired `"`; CPython
parses it, `fix_unclosed_strings` appends a quote and the result
`# 5" tall\nx = 1"` no longer parses (unterminated string), which the
oracle records by accepting exactly the original source. -/
def c6Source : String := "# 5\" tall\nx = 1"

def c6AstEnv : AstEnv :=
  ⟨fun s => s == c6Source, fun _ => [], fun _ => [], fun _ c => c⟩

/-- C6 witness: `x = 1` is a fixpoint of every healing pass, parses, and
has no unresolved names. -/
def c6wSource : String := "x = 1\n"

def c6wAstEnv : AstEnv :=
  ⟨fun s => s == c6wSource, fun _ => [], fun _ => [], fun _ c => c⟩

/-- C1 / C9: a fibonacci-memo source triggering the semantic-intent check
through its pure substring guards (`def fib`, `memo`, `return memo[0]`
after lowering); no regex oracle is consulted for it. -/
def fibMemoCode : String :=
  "def fib(n, memo):\n    if n in memo:\n        return memo[n]\n    memo[n] = fib(n-1, memo) + fib(n-2, memo)\n    return memo[0]\n"

/-- C2: a clean source; the sandbox of `inertCtrlEnv` reports no error, so
with an empty prompt iteration 1 records success and returns the source
unchanged. -/
def plainSuccessState : LoopState := ⟨"print(1)\n", [], [], 0⟩

/-- C3: a six-line base and a four-line candidate.  Both parse under
CPython; their top-level assignment names are as recorded; neither has
imports.  `int(6 * 0.75) = 4`, so the candidate passes the shrink check and
is adopted although `⌈0.75·6⌉ = 5 > 4`. -/
def c3Base : String := "a = 1\nb = 2\nc = 3\nd = 4\ne = 5\nf = 6\n"

def c3Candidate : String := "a = 1\nb = 2\nc = 3\nd = 4"

def c3Env : MergeEnv :=
  ⟨fun s => s == c3Base || s == c3Candidate,
   fun s => if s == c3Base then ["a", "b", "c", "d", "e", "f"]
     else if s == c3Candidate then ["a", "b", "c", "d"] else [],
   fun _ => [], fun _ => [], fun _ => [], fun _ => none,
   fun _ _ => false, fun _ _ t => t⟩

/-- C3 witness: a one-line base and a same-name one-line candidate, both
parsing, no additions — the merge adopts the candidate. -/
def c3wBase : String := "a = 1\n"

def c3wCandidate : String := "a = 2"

def c3wEnv : MergeEnv :=
  ⟨fun s => s == c3wBase || s == c3wCandidate,
   fun s => if s == c3wBase || s == c3wCandidate then ["a"] else [],
   fun _ => [], fun _ => [], fun _ => [], fun _ => none,
   fun _ _ => false, fun _ _ t => t⟩

/-- C8: the base defines `f`; the LLM text is a version of `f` whose body
holds nine imports, followed by `???` which stops it from parsing.  CPython
facts recorded: the candidate (= the raw text; the preamble strip and
`strip()` leave it unchanged) does not parse; the block regex extracts
exactly the `def f` block (its body lines all end in `\n`, `???` does not
start with whitespace); the per-name pattern for `f` matches the whole
base, so the `count=1` substitution yields `"\n" + block + "\n"`, which
parses; `ast.walk` collects the nine nested imports. -/
def c8Base : String := "def f():\n    return 0\n"

def c8Llm : String :=
  "def f():\n    import json\n    import re\n    import os\n    import sys\n    import ast\n    import math\n    import time\n    import abc\n    import cmath\n    return 1\n???"

def c8Block : String :=
  "def f():\n    import json\n    import re\n    import os\n    import sys\n    import ast\n    import math\n    import time\n    import abc\n    import cmath\n    return 1\n"

def c8Merged : String := "\n" ++ c8Block ++ "\n"

def c8Imports : List String :=
  ["json", "re", "os", "sys", "ast", "math", "time", "abc", "cmath"]

def c8Env : MergeEnv :=
  ⟨fun s => s == c8Base || s == c8Merged,
   fun s => if s == c8Base || s == c8Merged then ["f"] else [],
   fun s => if s == c8Merged then c8Imports else [],
   fun _ => [],
   fun s => if s == c8Llm then [c8Block] else [],
   fun b => if b == c8Block then some "f" else none,
   fun n t => n == "f" && t == c8Base,
   fun _ r t => if t == c8Base then r else t⟩

/-- C8 witness (full-rewrite part): the raw text opens with `x = (`, so the
stripped candidate (which loses the final newline) does not parse and its
last body line lacks the `\n` the block regex requires — no step-3 blocks —
while the raw text still ends in `\n` and yields the `def f` block for the
step-4 fallback. -/
def c8wLlm : String := "x = (\ndef f():\n    return 1\n"

def c8wBlock : String := "def f():\n    return 1\n"

def c8wMerged : String := "\n" ++ c8wBlock ++ "\n"

def c8wEnv : MergeEnv :=
  ⟨fun s => s == c8Base || s == c8wMerged,
   fun s => if s == c8Base || s == c8wMerged then ["f"] else [],
   fun _ => [],
   fun _ => [],
   fun s => if s == c8wLlm then [c8wBlock] else [],
   fun b => if b == c8wBlock then some "f" else none,
   fun n t => n == "f" && t == c8Base,
   fun _ r t => if t == c8Base then r else t⟩

/-- C9: an input whose unclosed list the pre-fix SSR pass repairs (CPython:
the input fails to parse, the closed version and the marker-bearing final
source parse).  The sandbox reports a SyntaxError on the first run and a
clean second run; the LLM returns `""`, so the forced-diff marker provides
the only recorded change; `difflib.ndiff` on the recorded pair gives two
context rows and one addition. -/
def c9Input : String := "xs = [1, 2\nprint(xs)\n"

def c9Fixed : String := "xs = [1, 2]\nprint(xs)\n"

def c9Final : String := "xs = [1, 2]\nprint(xs)\n# forced-diff-1\n"

def c9Env : CtrlEnv :=
  ⟨⟨fun s => s == c9Fixed || s == c9Final, fun _ => [], fun _ => [],
    fun _ => [], fun _ => [], fun _ => none, fun _ _ => false, fun _ _ t => t⟩,
   fun i _ => if i == 0 then ("", "SyntaxError: unclosed bracket") else ("", ""),
   fun _ _ => [],
   fun _ _ _ _ _ => "",
   fun _ _ _ => none,
   fun _ _ t => t,
   fun _ _ => false,
   fun _ _ => false,
   fun _ => [],
   fun _ => [],
   fun _ => [],
   fun a b =>
     if a == pySplitlines c9Fixed && b == pySplitlines c9Final then
       ["  xs = [1, 2]", "  print(xs)", "+ # forced-diff-1"]
     else []⟩

/-- C9 witness: a remove-all/add-all line diff; replaying its entries is
sound for every pair of sources, discharging the diff-soundness hypothesis. -/
def c9wNdiff : List String → List String → List String :=
  fun a b => a.map (fun l => "- " ++ l) ++ b.map (fun l => "+ " ++ l)

def c9wEnv : CtrlEnv :=
  ⟨inertMergeEnv,
   fun _ _ => ("", ""),
   fun _ _ => [],
   fun _ _ _ _ _ => "",
   fun _ _ _ => none,
   fun _ _ t => t,
   fun _ _ => false,
   fun _ _ => false,
   fun _ => [],
   fun _ => [],
   fun _ => [],
   c9wNdiff⟩

/-- Removal entries as `compute_changes` generates them from a run of
`"- "` rows starting at old-line counter `p` (helper for the C9 witness). -/
def remEnts (iteration : Nat) (method errType : String) :
    List String → Nat → List ChangeEntry
  | [], _ => []
  | t :: ts, p =>
    ⟨iteration, method, errType, "removed", some (p + 1), none, t, "", "Removed"⟩
      :: remEnts iteration method errType ts (p + 1)

/-- Addition entries from a run of `"+ "` rows starting at new-line
counter `q`. -/
def addEnts (iteration : Nat) (method errType : String) :
    List String → Nat → List ChangeEntry
  | [], _ => []
  | t :: ts, q =>
    ⟨iteration, method, errType, "added", none, some (q + 1), "", t, "Added"⟩
      :: addEnts iteration method errType ts (q + 1)

/-! ## Helper lemmas -/

theorem pyRstrip_data (s : String) :
    s.data = (pyRstrip s).data ++ (s.data.reverse.takeWhile pyIsSpace).reverse := by
  unfold pyRstrip
  rw [← List.reverse_append, List.takeWhile_append_dropWhile, List.reverse_reverse]

theorem pyRstrip_suffix_space (s : String) :
    ∀ c ∈ (s.data.reverse.takeWhile pyIsSpace).reverse, pyIsSpace c = true := by
  intro c hc
  exact List.mem_takeWhile_imp (List.mem_reverse.mp hc)

/-- The forced-diff fallback always changes the string: a string never
equals its own rstrip followed by the marker, because the marker's `#` is
not whitespace while everything after the rstrip point is. -/
theorem ensure_diff_self_ne (x : String) (i : Nat) : ensure_diff x x i ≠ x := by
  unfold ensure_diff
  simp only [ne_eq, not_true_eq_false, if_false]
  intro h
  have hdata := congrArg String.data h
  simp only [String.data_append, List.append_assoc] at hdata
  have h1 : (pyRstrip x).data ++ ("\n# forced-diff-" ++ toString i ++ "\n").data =
      x.data := by
    simp only [String.data_append, List.append_assoc]
    exact hdata
  rw [pyRstrip_data x] at h1
  have hm := List.append_cancel_left h1
  have hmem : '#' ∈ ("\n# forced-diff-" ++ toString i ++ "\n").data := by
    rw [String.data_append, String.data_append]
    exact List.mem_append_left _ (List.mem_append_left _ (by decide))
  rw [hm] at hmem
  exact absurd (pyRstrip_suffix_space x '#' hmem) (by decide)

/-- `validate_iteration` can only report success when the error kind is
`NONE` (`is_success` refuses everything else). -/
theorem validate_iteration_success (a b : String) (e : ErrorType)
    (h : (validate_iteration a b e).1 = true) : e = ErrorType.NONE := by
  by_contra hne
  have hs : is_success a b e = false := by simp [is_success, hne]
  unfold validate_iteration at h
  rw [hs] at h
  simp only [Bool.false_eq_true, if_false] at h
  simp [apply_ite Prod.fst] at h

/-! ## C5 — error parser fallback -/

/-- C5: the claim as stated is false: `parse_error` maps an unrecognised
diagnostic without a traceback marker to `RUNTIME`, not `UNKNOWN`
(`errors/error_parser.py` line 36).  Concrete input: `stderr = "hello"`. -/
theorem C5_counterexample : ¬ claimC5 := by
  intro h
  have h2 := (h "hello" "").2 (by decide) (by decide)
  exact absurd (h2.2 (by decide)) (by decide)

/-- C5 (amended): for the primary language `parse_error` maps an empty
diagnostic to `NONE`, and any non-empty diagnostic matching none of the
known error tokens to `RUNTIME` — whether or not it contains a traceback
marker. -/
theorem C5_amended (stderr code : String) :
    (pyStrip stderr = "" → (parse_error stderr code).1 = ErrorType.NONE) ∧
    (pyStrip stderr ≠ "" →
      (∀ tok ∈ pythonErrorTokens, pyContains tok stderr = false) →
      (parse_error stderr code).1 = ErrorType.RUNTIME) := by
  constructor
  · intro h
    simp [parse_error, h]
  · intro h htok
    have h1 := htok "SyntaxError" (by decide)
    have h2 := htok "NameError" (by decide)
    have h3 := htok "IndexError" (by decide)
    have h4 := htok "KeyError" (by decide)
    have h5 := htok "AttributeError" (by decide)
    have h6 := htok "ZeroDivisionError" (by decide)
    have h7 := htok "RecursionError" (by decide)
    simp [parse_error, h, h1, h2, h3, h4, h5, h6, h7]

/-- C5 witness: the amended theorem applied to the empty diagnostic and to
`"hello"`. -/
theorem C5_amended_witness :
    (parse_error "" "").1 = ErrorType.NONE ∧
    (parse_error "hello" "").1 = ErrorType.RUNTIME :=
  ⟨(C5_amended "" "").1 (by decide), (C5_amended "hello" "").2 (by decide) (by decide)⟩

/-! ## C7 — SSR idempotence -/

/-- C7: the claim as stated is false.  On `ssrLoopInput` (five unclosed
parens and a junk line; nothing parses, recorded by the constant-false
oracle) the four-attempt budget closes only four openers, and a second
application closes the fifth, so `SSR (SSR s) ≠ SSR s`. -/
theorem C7_counterexample : ¬ claimC7 := by
  intro h
  exact absurd (h (fun _ => false) ssrLoopInput) (by decide)

/-- C7 (amended): SSR is idempotent on every source that is already
CRLF-normalised and parses — it returns such a source unchanged.  (On
unparseable input the 4-attempt budget can exhaust with unclosed openers
left, and a reapplication continues repairing, as the counterexample
shows.) -/
theorem C7_amended (p : String → Bool) (s : String)
    (hnorm : pyNormNewlines s = s) (hp : p s = true) :
    apply_ssr_fix p (apply_ssr_fix p s) = apply_ssr_fix p s := by
  by_cases hs : s = ""
  · subst hs
    simp [apply_ssr_fix]
  · have h1 : apply_ssr_fix p s = s := by
      simp [apply_ssr_fix, hs, hnorm, hp]
    rw [h1, h1]

/-- C7 witness: the amended theorem at `"x = 1\n"` (a parsing, normalised
source) with the matching parse oracle. -/
theorem C7_amended_witness :
    pyNormNewlines "x = 1\n" = "x = 1\n" ∧
    apply_ssr_fix (fun _ => true) (apply_ssr_fix (fun _ => true) "x = 1\n") =
      apply_ssr_fix (fun _ => true) "x = 1\n" :=
  ⟨by decide, C7_amended (fun _ => true) "x = 1\n" (by decide) rfl⟩

/-! ## C10 — generative fixer output contract -/

/-- C10: `generate_llm_fix` returns `""` or text accepted by
`_is_valid_python` (every non-empty return is guarded by a parse check),
and with a backend that raises (`qwenGenerate = none`) it returns `""`.
This holds for every oracle behaviour. -/
theorem C10_confirmed (env : LlmEnv) (code err prompt : String)
    (issues : List Issue) :
    (generate_llm_fix env code err prompt issues = "" ∨
      env.parseOk (generate_llm_fix env code err prompt issues) = true) ∧
    generate_llm_fix ⟨env.parseOk, env.fenceSearch, fun _ => none⟩
      code err prompt issues = "" := by
  constructor
  · simp only [generate_llm_fix]
    split
    · exact Or.inl rfl
    · split
      · exact Or.inl rfl
      · split
        · next h =>
          simp only [Bool.and_eq_true, decide_eq_true_eq] at h
          exact Or.inr h.2
        · split
          · next h =>
            simp only [Bool.and_eq_true, decide_eq_true_eq] at h
            exact Or.inr h.2
          · split
            · next h => exact Or.inr h
            · exact Or.inl rfl
  · rfl

/-! ## C3 — merge shrink bound -/

/-- C3: the claim as stated is false.  With a six-line base and a
four-line parsing candidate, `int(6 * 0.75) = 4` lets the candidate through
the shrink check although `⌈0.75 · 6⌉ = 5`, so the adopted result has fewer
lines than the claimed ceiling bound. -/
theorem C3_counterexample : ¬ claimC3 := by
  intro h
  exact absurd (h c3Env c3Base c3Candidate false (by decide)) (by decide)

/-- C3 (amended): when the full-candidate path accepts (the candidate
parses, the base is non-empty, and the merge returns something other than
the base), the result has at least `max(1, ⌊0.75 · lines(base)⌋)` lines —
the floor, not the ceiling, and only on the full-candidate path; the
partial-substitution paths carry no line bound at all. -/
theorem C3_amended (env : MergeEnv) (base llmOut : String) (allow : Bool)
    (hparse : env.parseOk (mergeCandidateOf llmOut) = true)
    (hbase : 0 < _count_lines base)
    (hne : merge_llm_result env base llmOut allow ≠ base) :
    max 1 (_count_lines base * 3 / 4) ≤
      _count_lines (merge_llm_result env base llmOut allow) := by
  by_cases h0 : llmOut = ""
  · exact absurd (by simp [merge_llm_result, h0]) hne
  · simp only [merge_llm_result, if_neg h0, hparse, if_true] at hne ⊢
    split_ifs at hne ⊢ with h1 h2
    · exact absurd rfl hne
    · exact absurd rfl hne
    · simp only [gt_iff_lt, Bool.and_eq_true, decide_eq_true_eq, not_and,
        not_lt] at h1
      exact h1 hbase

/-- C3 witness: a one-line base with a one-line candidate the merge
adopts; the floor bound holds. -/
theorem C3_amended_witness :
    merge_llm_result c3wEnv c3wBase c3wCandidate false ≠ c3wBase ∧
    max 1 (_count_lines c3wBase * 3 / 4) ≤
      _count_lines (merge_llm_result c3wEnv c3wBase c3wCandidate false) :=
  ⟨by decide, C3_amended c3wEnv c3wBase c3wCandidate false (by decide) (by decide)
    (by decide)⟩

/-! ## C4 — rejected merges keep the base verbatim -/

/-- C4: on every rejection path — empty LLM output, shrink rejection,
excessive-addition rejection, unparseable base, or no substitution
succeeding in the partial-merge and full-rewrite steps — `merge_llm_result`
returns the base string itself.  Proved for every oracle behaviour. -/
theorem C4_confirmed (env : MergeEnv) (base llmOut : String) (allow : Bool)
    (h : llmOut = "" ∨
      (env.parseOk (mergeCandidateOf llmOut) = true ∧
        ((0 < _count_lines base ∧
            _count_lines (mergeCandidateOf llmOut) <
              max 1 (_count_lines base * 3 / 4)) ∨
          MAX_ADDED_TOPLEVEL_DEFS <
            pySetDiffCard (_top_level_names env (mergeCandidateOf llmOut))
              (_top_level_names env base) ∨
          MAX_ADDED_IMPORTS <
            pySetDiffCard (_imports_from_code env (mergeCandidateOf llmOut))
              (_imports_from_code env base))) ∨
      (env.parseOk (mergeCandidateOf llmOut) = false ∧ env.parseOk base = false) ∨
      (env.parseOk (mergeCandidateOf llmOut) = false ∧
        ¬ step3Accepts env base llmOut ∧
        (allow = true → ¬ step4Accepts env base llmOut))) :
    merge_llm_result env base llmOut allow = base := by
  rcases h with h0 | ⟨hp, hrej⟩ | ⟨hp, hb⟩ | ⟨hp, hs3, hs4⟩
  · simp [merge_llm_result, h0]
  · by_cases h0 : llmOut = ""
    · simp [merge_llm_result, h0]
    · simp only [merge_llm_result, if_neg h0, hp, if_true]
      split_ifs with h1 h2
      · rfl
      · rfl
      · exfalso
        simp only [gt_iff_lt, Bool.and_eq_true, Bool.or_eq_true,
          decide_eq_true_eq, not_or, not_and, not_lt] at h1 h2
        rcases hrej with hshrink | hdefs | himps
        · have := h1 hshrink.1
          omega
        · exact absurd hdefs (by omega)
        · exact absurd himps (by omega)
  · by_cases h0 : llmOut = ""
    · simp [merge_llm_result, h0]
    · simp [merge_llm_result, if_neg h0, hp, hb]
  · by_cases h0 : llmOut = ""
    · simp [merge_llm_result, h0]
    · by_cases hb : env.parseOk base
      · have hc3 : ((mergeBlocksFold env
            (env.findBlocks (mergeCandidateOf llmOut)) base false).2 &&
            env.parseOk (mergeBlocksFold env
              (env.findBlocks (mergeCandidateOf llmOut)) base false).1) = false := by
          unfold step3Accepts at hs3
          simp only [not_and] at hs3
          cases hA : (mergeBlocksFold env
            (env.findBlocks (mergeCandidateOf llmOut)) base false).2
          · simp
          · simp only [Bool.true_and]
            cases hB : env.parseOk (mergeBlocksFold env
              (env.findBlocks (mergeCandidateOf llmOut)) base false).1
            · rfl
            · exact absurd hB (hs3 hA)
        simp only [merge_llm_result, if_neg h0, hp, Bool.false_eq_true,
          if_false, hb, Bool.not_true, hc3, Bool.false_and, Bool.and_false]
        cases allow
        · simp
        · simp only [if_true]
          have hs4' := hs4 rfl
          unfold step4Accepts at hs4'
          simp only [not_and, not_le] at hs4'
          cases hA : (mergeBlocksFold env (env.findBlocks llmOut) base false).2
          · simp
          · cases hB : env.parseOk
              (mergeBlocksFold env (env.findBlocks llmOut) base false).1
            · simp
            · have hbounds := hs4' hA hB
              simp only [Bool.true_and, hB, if_true]
              rw [if_pos]
              simp only [Bool.or_eq_true, decide_eq_true_eq]
              omega
      · have hb' : env.parseOk base = false := by
          revert hb
          cases env.parseOk base <;> simp
        simp [merge_llm_result, if_neg h0, hp, hb']

/-- C4 witness: an empty LLM output is rejected and the base comes back
verbatim. -/
theorem C4_confirmed_witness :
    merge_llm_result inertMergeEnv "b = 1\n" "" true = "b = 1\n" :=
  C4_confirmed inertMergeEnv "b = 1\n" "" true (Or.inl rfl)

/-! ## C8 — merge additive bounds -/

set_option maxRecDepth 8000 in
/-- C8: the claim as stated is false.  A step-3 regex partial merge is not
subject to the hallucination bounds: substituting the candidate's `def f`
block (whose body holds nine nested imports) into the base yields a merged
result with nine new imports, exceeding the bound of eight. -/
theorem C8_counterexample : ¬ claimC8 := by
  intro h
  exact absurd ((h c8Env c8Base c8Llm false (by decide)).2) (by decide)

/-- C8 (amended): the additive bounds hold on the two paths that check
them — full-candidate adoption (step 1) and the full-rewrite fallback
(step 4, reached when the candidate does not parse and step 3 made no
progress); the regex partial merges of steps 2-3 are not bounded. -/
theorem C8_amended (env : MergeEnv) (base llmOut : String) (allow : Bool) :
    (env.parseOk (mergeCandidateOf llmOut) = true →
      merge_llm_result env base llmOut allow ≠ base →
      pySetDiffCard
          (_top_level_names env (merge_llm_result env base llmOut allow))
          (_top_level_names env base) ≤ MAX_ADDED_TOPLEVEL_DEFS ∧
        pySetDiffCard
          (_imports_from_code env (merge_llm_result env base llmOut allow))
          (_imports_from_code env base) ≤ MAX_ADDED_IMPORTS) ∧
    (env.parseOk (mergeCandidateOf llmOut) = false →
      ¬ step3Accepts env base llmOut →
      merge_llm_result env base llmOut allow ≠ base →
      pySetDiffCard
          (_top_level_names env (merge_llm_result env base llmOut allow))
          (_top_level_names env base) ≤ MAX_ADDED_TOPLEVEL_DEFS ∧
        pySetDiffCard
          (_imports_from_code env (merge_llm_result env base llmOut allow))
          (_imports_from_code env base) ≤ MAX_ADDED_IMPORTS) := by
  constructor
  · intro hp hne
    by_cases h0 : llmOut = ""
    · exact absurd (by simp [merge_llm_result, h0]) hne
    · simp only [merge_llm_result, if_neg h0, hp, if_true] at hne ⊢
      split_ifs at hne ⊢ with h1 h2
      · exact absurd rfl hne
      · exact absurd rfl hne
      · simp only [Bool.or_eq_true, decide_eq_true_eq, not_or, not_lt] at h2
        exact h2
  · intro hp hs3 hne
    by_cases h0 : llmOut = ""
    · exact absurd (by simp [merge_llm_result, h0]) hne
    · by_cases hb : env.parseOk base
      · have hc3 : ((mergeBlocksFold env
            (env.findBlocks (mergeCandidateOf llmOut)) base false).2 &&
            env.parseOk (mergeBlocksFold env
              (env.findBlocks (mergeCandidateOf llmOut)) base false).1) = false := by
          unfold step3Accepts at hs3
          simp only [not_and] at hs3
          cases hA : (mergeBlocksFold env
            (env.findBlocks (mergeCandidateOf llmOut)) base false).2
          · simp
          · simp only [Bool.true_and]
            cases hB : env.parseOk (mergeBlocksFold env
              (env.findBlocks (mergeCandidateOf llmOut)) base false).1
            · rfl
            · exact absurd hB (hs3 hA)
        simp only [merge_llm_result, if_neg h0, hp, Bool.false_eq_true,
          if_false, hb, Bool.not_true, hc3, Bool.false_and, Bool.and_false] at hne ⊢
        cases allow
        · simp at hne
        · simp only [if_true] at hne ⊢
          cases hA : (mergeBlocksFold env (env.findBlocks llmOut) base false).2
          · simp [hA] at hne
          · cases hB : env.parseOk
              (mergeBlocksFold env (env.findBlocks llmOut) base false).1
            · simp [hA, hB] at hne
            · simp only [hA, hB, Bool.true_and, if_true] at hne ⊢
              split_ifs at hne ⊢ with hbound
              · exact absurd rfl hne
              · simp only [Bool.or_eq_true, decide_eq_true_eq, not_or,
                  not_lt] at hbound
                exact hbound
      · have hb' : env.parseOk base = false := by
          revert hb
          cases env.parseOk base <;> simp
        exact absurd (by simp [merge_llm_result, if_neg h0, hp, hb']) hne

/-- C8 witness: step 1 adopting a bounded candidate, and the step-4
full-rewrite fallback accepting a bounded `def f` replacement when the
stripped candidate neither parses nor yields step-3 blocks. -/
theorem C8_amended_witness :
    (pySetDiffCard
        (_top_level_names c3wEnv (merge_llm_result c3wEnv c3wBase c3wCandidate false))
        (_top_level_names c3wEnv c3wBase) ≤ MAX_ADDED_TOPLEVEL_DEFS ∧
      pySetDiffCard
        (_imports_from_code c3wEnv (merge_llm_result c3wEnv c3wBase c3wCandidate false))
        (_imports_from_code c3wEnv c3wBase) ≤ MAX_ADDED_IMPORTS) ∧
    (pySetDiffCard
        (_top_level_names c8wEnv (merge_llm_result c8wEnv c8Base c8wLlm true))
        (_top_level_names c8wEnv c8Base) ≤ MAX_ADDED_TOPLEVEL_DEFS ∧
      pySetDiffCard
        (_imports_from_code c8wEnv (merge_llm_result c8wEnv c8Base c8wLlm true))
        (_imports_from_code c8wEnv c8Base) ≤ MAX_ADDED_IMPORTS) :=
  ⟨(C8_amended c3wEnv c3wBase c3wCandidate false).1 (by decide) (by decide),
   (C8_amended c8wEnv c8Base c8wLlm true).2 (by decide)
     (by unfold step3Accepts; decide) (by decide)⟩

/-! ## C2 — per-iteration progress -/

/-- Every exit of the LLM fix block changes the code: the three merge
adoptions are guarded by a `normalize_code` difference, and the fallback
appends the forced-diff marker. -/
theorem llmFixBranch_fst_ne (env : CtrlEnv) (i : Nat) (oldCode llmRaw : String)
    (calls : Nat) :
    (llmFixBranch env i oldCode oldCode llmRaw calls).1 ≠ oldCode := by
  simp only [llmFixBranch]
  split_ifs <;>
    first
      | exact ensure_diff_self_ne oldCode i
      | (intro he; exact absurd (congrArg normalize_code he) (by assumption))

/-- C2 (amended): every iteration that reaches the apply-fix stage leaves
it with code textually different from the pre-fix (post-SSR, post-patch)
source `old_code` — by an AST change, an adopted merge, or the forced-diff
marker.  The guarantee is measured at the fix stage; an iteration that
terminates at the success check instead returns its input unchanged, and
the surrounding SSR passes are outside the guarantee. -/
theorem C2_amended (env : CtrlEnv) (userPrompt : String) (i : Nat)
    (method : String) (errorType : ErrorType) (oldCode fullErr : String)
    (logicIssues : List Issue) (calls : Nat)
    (hm : method = "AST" ∨ method = "LLM") :
    (applyFixStage env userPrompt i method errorType oldCode fullErr
      logicIssues calls).1 ≠ oldCode := by
  rcases hm with hm | hm
  · subst hm
    cases hast : env.astFix calls errorType oldCode with
    | some patched =>
      by_cases hn : normalize_code patched ≠ normalize_code oldCode
      · simp only [applyFixStage, hast, if_pos hn, reduceIte]
        intro he
        exact hn (congrArg normalize_code he)
      · simp only [applyFixStage, hast, if_neg hn, reduceIte]
        exact llmFixBranch_fst_ne env i oldCode _ _
    | none =>
      simp only [applyFixStage, hast, reduceIte]
      exact llmFixBranch_fst_ne env i oldCode _ _
  · subst hm
    simp only [applyFixStage, reduceIte]
    exact llmFixBranch_fst_ne env i oldCode _ _

/-- C2: the claim as stated is false.  An iteration whose sandbox run is
clean under an empty prompt records success and returns the source
bit-identical to its input. -/
theorem C2_counterexample : ¬ claimC2 := by
  intro h
  exact h inertCtrlEnv "" 1 plainSuccessState (by decide)

/-- C2 witness: the amended theorem at the inert environment — with the
LLM returning `""` all merges are no-ops and the forced-diff marker makes
the fix-stage output differ. -/
theorem C2_amended_witness :
    (applyFixStage inertCtrlEnv "" 1 "LLM" ErrorType.NAME "x = 1\n" "" [] 0).1 ≠
      "x = 1\n" :=
  C2_amended inertCtrlEnv "" 1 "LLM" ErrorType.NAME "x = 1\n" "" [] 0 (Or.inr rfl)

/-! ## C1 — success implies clean error kind -/

/-- The per-iteration record's success flag comes from
`validate_iteration`, which requires error kind `NONE`. -/
theorem emitIteration_reports_sound (st : LoopState) (i : Nat)
    (newCode valStdout valStderr appliedMethod : String) (newErr : ErrorType)
    (changeLog : List ChangeEntry) (calls : Nat)
    (hst : ∀ r ∈ st.reports, r.success = true →
      r.errorType = RecordError.et ErrorType.NONE) :
    ∀ r ∈ stepReports (emitIteration st i newCode valStdout valStderr
        appliedMethod newErr changeLog calls),
      r.success = true → r.errorType = RecordError.et ErrorType.NONE := by
  intro r hr
  simp only [emitIteration] at hr
  split at hr
  all_goals
    simp only [stepReports] at hr
    rcases List.mem_append.mp hr with h | h
    · exact hst r h
    · simp only [List.mem_singleton] at h
      subst h
      intro hsucc
      simp only [create_iteration_report] at hsucc ⊢
      rw [validate_iteration_success _ _ _ hsucc]

/-- Lifting `emitIteration_reports_sound` through the iteration tail. -/
theorem iterationFinish_reports_sound (env : CtrlEnv) (i : Nat)
    (st : LoopState) (out oldCode : String) (errorType : ErrorType)
    (fx : String × String × Nat)
    (hst : ∀ r ∈ st.reports, r.success = true →
      r.errorType = RecordError.et ErrorType.NONE) :
    ∀ r ∈ stepReports (iterationFinish env i st out oldCode errorType fx),
      r.success = true → r.errorType = RecordError.et ErrorType.NONE := by
  intro r hr
  simp only [iterationFinish] at hr
  exact emitIteration_reports_sound st i _ _ _ _ _ _ _ hst r hr

set_option maxHeartbeats 2000000 in
/-- Any record an iteration step appends keeps the success-implies-`NONE`
property: the early-success record carries `NONE` by its branch condition,
and the per-iteration record goes through `validate_iteration`. -/
theorem iterationStep_reports_sound (env : CtrlEnv) (p : String) (i : Nat)
    (st : LoopState)
    (hst : ∀ r ∈ st.reports, r.success = true →
      r.errorType = RecordError.et ErrorType.NONE) :
    ∀ r ∈ stepReports (iterationStep env p i st), r.success = true →
      r.errorType = RecordError.et ErrorType.NONE := by
  intro r hr
  simp only [iterationStep] at hr
  split at hr <;> split at hr
  all_goals
    first
      | exact iterationFinish_reports_sound env i st _ _ _ _ hst r hr
      | (rename_i hcond
         simp only [stepReports] at hr
         rcases List.mem_append.mp hr with h | h
         · exact hst r h
         · simp only [List.mem_singleton] at h
           subst h
           intro _
           simp [create_iteration_report, hcond.1])

/-- The loop preserves the success-implies-`NONE` property of the report
list. -/
theorem runIterations_reports_sound (env : CtrlEnv) (p : String) :
    ∀ (n i : Nat) (st : LoopState),
      (∀ r ∈ st.reports, r.success = true →
        r.errorType = RecordError.et ErrorType.NONE) →
      ∀ r ∈ (runIterations env p n i st).reports, r.success = true →
        r.errorType = RecordError.et ErrorType.NONE := by
  intro n
  induction n with
  | zero =>
    intro i st hst
    simpa [runIterations] using hst
  | succ n ih =>
    intro i st hst r hr
    simp only [runIterations] at hr
    have hstep := iterationStep_reports_sound env p i st hst
    cases hout : iterationStep env p i st with
    | done c rep cl s =>
      rw [hout] at hr hstep
      simp only [stepReports] at hstep
      exact hstep r hr
    | next st' =>
      rw [hout] at hr hstep
      simp only [stepReports] at hstep
      exact ih (i + 1) st' hstep r hr

set_option maxHeartbeats 1600000 in
/-- C1: the claim as stated is false.  On a fibonacci-memo input the
semantic-intent check fires and the controller emits the iteration-0 record
with `success = True` and `error_type = "SEMANTIC"`, not `NONE`
(`iteration_controller.py` lines 265-273). -/
theorem C1_counterexample : ¬ claimC1 := by
  intro h
  exact absurd
    (h inertCtrlEnv fibMemoCode "" 3
      (create_iteration_report 0 fibMemoCode "" "" "LLM" (.raw "SEMANTIC") true)
      (by decide) rfl)
    (by decide)

/-- C1 (amended): every IterationRecord of the main loop (iteration ≥ 1)
with `success = true` carries error kind `NONE`; the iteration-0
semantic-intent record is instead emitted with `success = true` and the
error kind string `"SEMANTIC"`. -/
theorem C1_amended (env : CtrlEnv) (original userPrompt : String)
    (maxIter : Nat) :
    ∀ r ∈ (run_repair_loop env original userPrompt maxIter).reports,
      1 ≤ r.iteration → r.success = true →
      r.errorType = RecordError.et ErrorType.NONE := by
  intro r hr hiter hsucc
  by_cases hdet : detect_semantic_conflicts env original = true
  · simp only [run_repair_loop, hdet, if_true, semanticBranch,
      List.mem_singleton] at hr
    subst hr
    simp [create_iteration_report] at hiter
  · simp only [run_repair_loop, hdet, if_false] at hr
    exact runIterations_reports_sound env userPrompt _ 1 ⟨original, [], [], 0⟩
      (by simp) r hr hsucc

set_option maxHeartbeats 1600000 in
/-- C1 witness: a clean run's success record (iteration 1) carries `NONE`. -/
theorem C1_amended_witness :
    (create_iteration_report 1 "print(1)\n" "" "" "NONE"
      (.et ErrorType.NONE) true).errorType = RecordError.et ErrorType.NONE :=
  C1_amended inertCtrlEnv "print(1)\n" "" 1
    (create_iteration_report 1 "print(1)\n" "" "" "NONE" (.et ErrorType.NONE) true)
    (by decide) (by decide) rfl


/-- C6 is refuted: on the parsing source `c6Source` (an unpaired quote in a
comment) the naive quote-balancing pass appends a `"` and the output no
longer parses. -/
theorem C6_counterexample : ¬ claimC6 := by
  intro h
  exact absurd (h c6AstEnv (fun _ => []) ErrorType.SYNTAX c6Source (by decide)).1
    (by decide)

/-- C6 amended: on a parsing source that every syntactic healing pass leaves
unchanged and that has no unresolved names, the structured fixer is the
identity, so in particular its output parses and keeps the top-level names. -/
theorem C6_amended (env : AstEnv) (k : ErrorType) (s : String)
    (h1 : fix_unclosed_brackets s = s)
    (h2 : fix_backward_bracket_mismatch s = s)
    (h3 : fix_unclosed_strings s = s)
    (h4 : fix_missing_colons_and_indent s = s)
    (h5 : fix_missing_commas s = s)
    (h6 : fix_incomplete_calls s = s)
    (h7 : fix_broken_assignments s = s)
    (h8 : fix_trailing_operators s = s)
    (hp : env.parseOk s = true)
    (hu : env.unresolvedOf s = []) :
    try_ast_fix env k s = s := by
  simp only [try_ast_fix, h1, h2, h3, h4, h5, h6, h7, h8, hp, if_true]
  simp [fix_imports_and_names, hu]

/-- C6 amended, witnessed at `x = 1\n` with its recorded oracles. -/
theorem C6_amended_witness :
    try_ast_fix c6wAstEnv ErrorType.SYNTAX c6wSource = c6wSource :=
  C6_amended c6wAstEnv ErrorType.SYNTAX c6wSource (by decide) (by decide)
    (by decide) (by decide) (by decide) (by decide) (by decide) (by decide)
    (by decide) (by decide)

/-- Replaying an empty batch leaves the lines unchanged. -/
theorem applyGroup_nil (lines : List String) : applyGroup lines [] = lines := by
  simp [applyGroup, List.enum_map_snd]

/-- `groupByIterGo` keeps a batch whole when every remaining entry already
shares its iteration index. -/
theorem groupByIterGo_uniform (i : Nat) (rest : List ChangeEntry)
    (h : ∀ e ∈ rest, e.iteration = i) :
    ∀ cur : List ChangeEntry, groupByIterGo i cur rest = [cur.reverse ++ rest] := by
  induction rest with
  | nil => intro cur; simp [groupByIterGo]
  | cons e tl ih =>
    intro cur
    have he : e.iteration = i := h e (List.mem_cons_self e tl)
    unfold groupByIterGo
    rw [if_pos he, ih (fun x hx => h x (List.mem_cons_of_mem e hx)) (e :: cur)]
    simp

/-- A change log whose entries all carry one iteration index replays as a
single batch. -/
theorem replayLines_uniform (lines : List String) (i : Nat)
    (entries : List ChangeEntry) (h : ∀ e ∈ entries, e.iteration = i) :
    replayLines lines entries = applyGroup lines entries := by
  cases entries with
  | nil => simp [replayLines, applyGroup_nil]
  | cons e rest =>
    have he : e.iteration = i := h e (List.mem_cons_self e rest)
    simp only [replayLines]
    rw [he, groupByIterGo_uniform i rest (fun x hx => h x (List.mem_cons_of_mem e hx)) [e]]
    simp [List.foldl]

/-- Every entry `compute_changes` emits carries the iteration index it was
given. -/
theorem computeChangesGo_iteration (i : Nat) (m e : String) :
    ∀ (rows : List String) (p q : Nat),
      ∀ en ∈ computeChangesGo i m e rows p q, en.iteration = i := by
  intro rows
  induction rows with
  | nil => intro p q en h; simp [computeChangesGo] at h
  | cons r rest ih =>
    intro p q en h
    simp only [computeChangesGo] at h
    split at h
    · exact ih _ _ en h
    · split at h
      · rcases List.mem_cons.mp h with h | h
        · subst h; rfl
        · exact ih _ _ en h
      · split at h
        · rcases List.mem_cons.mp h with h | h
          · subst h; rfl
          · exact ih _ _ en h
        · exact ih _ _ en h

theorem compute_changes_iteration (nd : List String → List String → List String)
    (a b : String) (i : Nat) (me er : String) :
    ∀ en ∈ compute_changes nd a b i me er, en.iteration = i :=
  fun en h => computeChangesGo_iteration i me er _ 0 0 en h



theorem tagRem (t : String) : pyTakeChars 2 ("- " ++ t) = "- " := by
  simp only [pyTakeChars, String.data_append]
  rfl

theorem textRem (t : String) : pyDropChars 2 ("- " ++ t) = t := by
  cases t with
  | mk l =>
    simp only [pyDropChars, String.data_append]
    rfl

theorem tagAdd (t : String) : pyTakeChars 2 ("+ " ++ t) = "+ " := by
  simp only [pyTakeChars, String.data_append]
  rfl

theorem textAdd (t : String) : pyDropChars 2 ("+ " ++ t) = t := by
  cases t with
  | mk l =>
    simp only [pyDropChars, String.data_append]
    rfl

/-- A run of removal rows produces exactly the removal entries, advancing
the old-line counter. -/
theorem computeChangesGo_rem (i : Nat) (m e : String) :
    ∀ (A rows : List String) (p q : Nat),
      computeChangesGo i m e (A.map (fun l => "- " ++ l) ++ rows) p q =
        remEnts i m e A p ++ computeChangesGo i m e rows (p + A.length) q := by
  intro A
  induction A with
  | nil => intro rows p q; simp [remEnts]
  | cons t ts ih =>
    intro rows p q
    simp only [List.map_cons, List.cons_append, computeChangesGo, tagRem, textRem,
      List.append_eq]
    rw [if_pos trivial, ih rows (p + 1) q]
    simp only [remEnts, List.cons_append, List.length_cons]
    have hp : p + 1 + ts.length = p + (ts.length + 1) := by omega
    rw [hp, if_neg (by decide : ¬ (("- " : String) = "  "))]

/-- A run of addition rows produces exactly the addition entries, advancing
the new-line counter. -/
theorem computeChangesGo_add (i : Nat) (m e : String) :
    ∀ (B : List String) (p q : Nat),
      computeChangesGo i m e (B.map (fun l => "+ " ++ l)) p q =
        addEnts i m e B q := by
  intro B
  induction B with
  | nil => intro p q; simp [remEnts, addEnts, computeChangesGo]
  | cons t ts ih =>
    intro p q
    simp only [List.map_cons, computeChangesGo, tagAdd, textAdd]
    rw [if_pos trivial, ih p (q + 1)]
    simp only [addEnts]
    rw [if_neg (by decide : ¬ (("+ " : String) = "  ")),
      if_neg (by decide : ¬ (("+ " : String) = "- "))]



/-- The removal entries select exactly the old-line positions
`p+1, …, p+|A|`. -/
theorem remEnts_removedSel (i : Nat) (m e : String) :
    ∀ (A : List String) (p : Nat),
      (remEnts i m e A p).filterMap removedSel = List.range' (p + 1) A.length := by
  intro A
  induction A with
  | nil => intro p; simp [remEnts]
  | cons t ts ih =>
    intro p
    simp only [remEnts, List.filterMap_cons, removedSel, List.length_cons,
      List.range'_succ]
    rw [if_pos trivial]
    show (p + 1) :: (remEnts i m e ts (p + 1)).filterMap removedSel =
      (p + 1) :: List.range' (p + 1 + 1) ts.length
    rw [ih (p + 1)]

/-- The addition entries select no removal position. -/
theorem addEnts_removedSel (i : Nat) (m e : String) :
    ∀ (B : List String) (q : Nat),
      (addEnts i m e B q).filterMap removedSel = [] := by
  intro B
  induction B with
  | nil => intro q; simp [addEnts]
  | cons t ts ih =>
    intro q
    simp only [addEnts, List.filterMap_cons, removedSel]
    rw [if_neg (by decide : ¬ (("added" : String) = "removed")), ih (q + 1)]

/-- Folding the addition step over removal entries changes nothing. -/
theorem remEnts_foldl (i : Nat) (m e : String) :
    ∀ (A : List String) (p : Nat) (acc : List String),
      (remEnts i m e A p).foldl addStep acc = acc := by
  intro A
  induction A with
  | nil => intro p acc; rfl
  | cons t ts ih =>
    intro p acc
    simp only [remEnts, List.foldl_cons, addStep]
    rw [if_neg (by decide : ¬ (("removed" : String) = "added")), ih (p + 1) acc]

/-- Folding the addition step over the addition entries of a batch appends
their texts in order, provided the accumulator already holds the first
`q` lines. -/
theorem addEnts_foldl (i : Nat) (m e : String) :
    ∀ (B : List String) (acc : List String) (q : Nat), acc.length = q →
      (addEnts i m e B q).foldl addStep acc = acc ++ B := by
  intro B
  induction B with
  | nil => intro acc q _; simp [addEnts]
  | cons t ts ih =>
    intro acc q hq
    simp only [addEnts, List.foldl_cons, addStep]
    rw [if_pos trivial]
    have hidx : q + 1 - 1 = q := by omega
    rw [hidx, ← hq, List.insertIdx_length_self,
      ih (acc ++ [t]) (acc.length + 1) (by simp)]
    simp

/-- Every enumerated index below the covering range filters away. -/
theorem enumFrom_filter_covered (L : Nat) :
    ∀ (A : List String) (n : Nat), n + A.length ≤ L →
      (A.enumFrom n).filter
        (fun x => !((List.range' 1 L).contains (x.1 + 1))) = [] := by
  intro A
  induction A with
  | nil => intro n _; rfl
  | cons a A ih =>
    intro n hn
    have hc : (List.range' 1 L).contains (n + 1) = true := by
      have hm : (n + 1) ∈ List.range' 1 L := by
        rw [List.mem_range'_1]
        constructor
        · omega
        · simp only [List.length_cons] at hn; omega
      exact List.elem_iff.mpr hm
    simp only [List.enumFrom_cons, List.filter_cons, hc, Bool.not_true]
    exact ih (n + 1) (by simp only [List.length_cons] at hn; omega)

/-- Replaying a remove-everything / add-everything batch over the removed
lines yields exactly the added lines. -/
theorem applyGroup_rem_add (i : Nat) (m e : String) (A B : List String) :
    applyGroup A (remEnts i m e A 0 ++ addEnts i m e B 0) = B := by
  simp only [applyGroup, List.filterMap_append, remEnts_removedSel,
    addEnts_removedSel, List.append_nil, List.foldl_append, remEnts_foldl,
    Nat.zero_add]
  rw [show List.enum A = List.enumFrom 0 A from rfl,
    enumFrom_filter_covered A.length A 0 (by omega)]
  simp only [List.map_nil]
  rw [addEnts_foldl i m e B [] 0 rfl]
  simp



/-- The semantic branch's change log is the diff between the original and
its own final source. -/
theorem semanticBranch_changeLog (env : CtrlEnv) (o u : String) :
    (semanticBranch env o u).changeLog =
      compute_changes env.ndiff o (semanticBranch env o u).finalCode 0 "LLM"
        "SEMANTIC" := rfl

/-- The remove-all/add-all diff of `c9wNdiff` replays soundly on any pair of
sources. -/
theorem c9wNdiff_sound (a b : String) (i : Nat) (m e : String) :
    applyGroup (pySplitlines a) (compute_changes c9wNdiff a b i m e) =
      pySplitlines b := by
  have h1 : compute_changes c9wNdiff a b i m e =
      remEnts i m e (pySplitlines a) 0 ++ addEnts i m e (pySplitlines b) 0 := by
    show computeChangesGo i m e
        ((pySplitlines a).map (fun l => "- " ++ l) ++
          (pySplitlines b).map (fun l => "+ " ++ l)) 0 0 = _
    rw [computeChangesGo_rem, computeChangesGo_add]
  rw [h1, applyGroup_rem_add]

/-- C9 is refuted: in the `c9Env` run the pre-fix SSR repair of iteration 1
changes the source before `old_code` is captured, so the closing `]` never
enters the change log and the replay misses it. -/
theorem C9_counterexample : ¬ claimC9 := fun h =>
  absurd (h c9Env c9Input "fix" 1) (by decide)

/-- C9 amended: on the iteration-0 semantic-intent branch the whole run's
change log is one iteration-0 diff, so whenever the diff oracle is sound
(applying a diff's entries to the old lines yields the new lines, as
`difflib.ndiff` guarantees), replaying the change log over the initial
source reproduces the final source. -/
theorem C9_amended (env : CtrlEnv) (original userPrompt : String)
    (maxIter : Nat)
    (hd : detect_semantic_conflicts env original = true)
    (hs : ∀ b, applyGroup (pySplitlines original)
        (compute_changes env.ndiff original b 0 "LLM" "SEMANTIC") =
          pySplitlines b) :
    replayLines (pySplitlines original)
        ((run_repair_loop env original userPrompt maxIter).changeLog) =
      pySplitlines ((run_repair_loop env original userPrompt maxIter).finalCode) := by
  have hrun : run_repair_loop env original userPrompt maxIter =
      semanticBranch env original userPrompt := by
    simp [run_repair_loop, hd]
  rw [hrun, semanticBranch_changeLog]
  rw [replayLines_uniform _ 0 _
    (compute_changes_iteration env.ndiff original _ 0 "LLM" "SEMANTIC")]
  exact hs _

/-- C9 amended, witnessed on the fibonacci-memo source (which trips the
semantic-intent detector) under the sound remove-all/add-all diff oracle. -/
theorem C9_amended_witness :
    replayLines (pySplitlines fibMemoCode)
        ((run_repair_loop c9wEnv fibMemoCode "" 3).changeLog) =
      pySplitlines ((run_repair_loop c9wEnv fibMemoCode "" 3).finalCode) :=
  C9_amended c9wEnv fibMemoCode "" 3 (by decide)
    (fun b => c9wNdiff_sound fibMemoCode b 0 "LLM" "SEMANTIC")

end AutoFix
